import Mathlib

/-!
Verification of the versioned content store with staged change requests.

The definitions below are a shallow embedding of the Python source
(`app/routers/change_requests.py`, `app/routers/files.py`,
`app/routers/pages.py`, `app/s3.py`, `app/models.py`, `app/auth.py`).

Modelling conventions:
- Blob contents are abstract byte strings (`Bytes := List Nat`); the UTF-8
  encode/decode pair at the HTTP boundary is outside the model, so file
  contents are tracked at the byte level.
- The blob store is an association list keyed by string (`put` replaces,
  `get` looks up, `delete` removes), matching the flat key/value contract
  of `app/s3.py`.
- `uuid.uuid4().hex` key generation is modelled by a fresh-counter supply
  (`next_key`), preserving freshness under the reserved prefixes
  `_staging/` and `_versions/`.
- `hashlib.sha256(...).hexdigest()` (`S3Service.compute_hash`) is an
  external library primitive; it is passed as an abstract function
  parameter `sha256_hex : Bytes → String`.
- Each HTTP handler becomes a function from request data and a state to
  `Except HTTPError result × St`.  `app/database.py` (the `get_db` session
  plumbing) is not part of the sources; following spec section 7, a raised
  error rolls back all metadata (database) writes of the request while
  blob-store side effects already performed are kept.
- Timestamps are modelled by a logical clock `now` stored in the state.
-/

/-- Byte strings stored in the blob store. -/
abbrev Bytes := List Nat

/-- An HTTP error as raised by `HTTPException(status, detail)`. -/
structure HTTPError where
  status : Nat
  detail : String
deriving Repr, DecidableEq

/-- A row of the `file_versions` table (`app/models.py`). -/
structure FileVersion where
  id : Nat
  file_path : String
  version : Nat
  s3_key : String
  size : Nat
  content_hash : String
  author_id : Nat
  message : String
  is_delete : Bool
deriving Repr, DecidableEq

/-- A row of the `change_requests` table (`app/models.py`). -/
structure ChangeRequest where
  id : Nat
  title : String
  description : String
  status : String
  author_id : Nat
  reviewer_id : Option Nat
  review_comment : Option String
  reviewed_at : Option Nat
  merged_at : Option Nat
  updated_at : Nat
deriving Repr, DecidableEq

/-- A row of the `change_request_files` table (`app/models.py`). -/
structure ChangeRequestFile where
  id : Nat
  change_request_id : Nat
  file_path : String
  action : String
  staging_s3_key : Option String
  base_version_id : Option Nat
deriving Repr, DecidableEq

/-- A row of the `file_shares` table (`app/models.py`). -/
structure FileShare where
  file_path : String
  token : String
  is_public : Bool
  is_archived : Bool
deriving Repr, DecidableEq

/-- An authenticated user (id, username and role string). -/
structure User where
  id : Nat
  username : String
  role : String
deriving Repr, DecidableEq

namespace UserRole

def admin : String := "admin"

def approver : String := "approver"

def editor : String := "editor"

def viewer : String := "viewer"

end UserRole

namespace CRStatus

def draft : String := "draft"

def pending_review : String := "pending_review"

def approved : String := "approved"

def rejected : String := "rejected"

def merged : String := "merged"

def closed : String := "closed"

end CRStatus

namespace FileAction

def create : String := "create"

def edit : String := "edit"

def delete : String := "delete"

end FileAction

/-- Roles that can write (`WRITE_ROLES` in `app/routers/files.py`). -/
def WRITE_ROLES : List String := [UserRole.admin, UserRole.approver, UserRole.editor]

/-- The `require_role` dependency of `app/auth.py` as a predicate. -/
def require_role (roles : List String) (user : User) : Bool :=
  roles.contains user.role

/-- Combined database and blob-store state, plus id/key/clock supplies. -/
structure St where
  file_versions : List FileVersion
  change_requests : List ChangeRequest
  cr_files : List ChangeRequestFile
  file_shares : List FileShare
  s3 : List (String × Bytes)
  next_fv_id : Nat
  next_cr_id : Nat
  next_crf_id : Nat
  next_key : Nat
  now : Nat
deriving Repr, DecidableEq

/-- `S3Service.put_object`: last put wins per key. -/
def s3_put (s3 : List (String × Bytes)) (key : String) (content : Bytes) :
    List (String × Bytes) :=
  (key, content) :: s3.filter (fun kv => kv.1 != key)

/-- `S3Service.get_object`: `none` models the raised not-found error. -/
def s3_get (s3 : List (String × Bytes)) (key : String) : Option Bytes :=
  (s3.find? (fun kv => kv.1 == key)).map (fun kv => kv.2)

/-- `S3Service.delete_object`: idempotent removal. -/
def s3_delete (s3 : List (String × Bytes)) (key : String) : List (String × Bytes) :=
  s3.filter (fun kv => kv.1 != key)

/-- `S3Service.generate_staging_key` with the uuid modelled by a counter. -/
def generate_staging_key (n : Nat) : String := "_staging/" ++ toString n

/-- `S3Service.generate_version_key` with the uuid modelled by a counter. -/
def generate_version_key (n : Nat) : String := "_versions/" ++ toString n

/-- Python `s.strip("/")`: drop leading and trailing slashes. -/
def strip_slashes (s : String) : String :=
  String.mk (((s.toList.dropWhile (fun c => c == '/')).reverse.dropWhile
    (fun c => c == '/')).reverse)

/-- Python `s.startswith(pre)`, computed over the character list so that it
reduces in the kernel. -/
def starts_with (s pre : String) : Bool := pre.toList.isPrefixOf s.toList

/-- The extension-to-content-type table of `S3Service.guess_content_type`. -/
def content_type_map : List (String × String) :=
  [("html", "text/html"), ("css", "text/css"), ("js", "application/javascript"),
   ("json", "application/json"), ("xml", "application/xml"), ("yaml", "text/yaml"),
   ("yml", "text/yaml"), ("md", "text/markdown"), ("txt", "text/plain"),
   ("py", "text/x-python"), ("rb", "text/x-ruby"), ("go", "text/x-go"),
   ("rs", "text/x-rust"), ("java", "text/x-java"), ("ts", "text/typescript"),
   ("tsx", "text/typescript"), ("jsx", "text/javascript"), ("sh", "text/x-shellscript"),
   ("sql", "text/x-sql"), ("csv", "text/csv"), ("svg", "image/svg+xml"),
   ("png", "image/png"), ("jpg", "image/jpeg"), ("jpeg", "image/jpeg"),
   ("gif", "image/gif"), ("pdf", "application/pdf"), ("zip", "application/zip"),
   ("tar", "application/x-tar"), ("gz", "application/gzip")]

/-- `S3Service.guess_content_type`. -/
def guess_content_type (path : String) : String :=
  let ext := if path.contains '.' then ((path.splitOn ".").getLastD "").toLower else ""
  match content_type_map.find? (fun kv => kv.1 == ext) with
  | some kv => kv.2
  | none => "application/octet-stream"

/-- `S3Service.is_text_file`. -/
def is_text_file (path : String) : Bool :=
  let ct := guess_content_type path
  starts_with ct "text/" || ct == "application/json" || ct == "application/javascript" ||
    ct == "application/xml" || ct == "application/x-yaml" || ct == "text/markdown" ||
    ct == "text/x-python"

/-- Lookup of a change request by id (`select(ChangeRequest).where(id == cr_id)`). -/
def find_cr (st : St) (cr_id : Nat) : Option ChangeRequest :=
  st.change_requests.find? (fun c => c.id == cr_id)

/-- The `files` relationship of one change request. -/
def cr_files_of (st : St) (cr_id : Nat) : List ChangeRequestFile :=
  st.cr_files.filter (fun f => f.change_request_id == cr_id)

/-- Write back an updated change-request row (matched by primary key). -/
def set_cr (st : St) (cr : ChangeRequest) : St :=
  { st with change_requests :=
      st.change_requests.map (fun c => if c.id == cr.id then cr else c) }

/-- The `file_versions` rows for one path. -/
def versions_for (l : List FileVersion) (p : String) : List FileVersion :=
  l.filter (fun v => v.file_path == p)

/-- `select(func.max(FileVersion.version)).where(file_path == p)`, with `or 0`
for the empty case. -/
def max_version (l : List FileVersion) (p : String) : Nat :=
  (versions_for l p).foldl (fun m v => max m v.version) 0

/-- `_get_next_version` of `app/routers/files.py` (also inlined in merge). -/
def get_next_version (st : St) (p : String) : Nat :=
  max_version st.file_versions p + 1

/-- `_get_latest_version`: the row for `p` with the highest version
(`order_by desc(version) limit 1`). -/
def get_latest_version (st : St) (p : String) : Option FileVersion :=
  (versions_for st.file_versions p).foldl
    (fun acc v =>
      match acc with
      | none => some v
      | some w => if v.version > w.version then some v else some w) none

/-- Request body of `POST /api/cr/:id/files` (`AddFileRequest`), with the
content already UTF-8 encoded to bytes. -/
structure AddFileRequest where
  file_path : String
  action : String
  content : Option Bytes
deriving Repr, DecidableEq

/-- `add_file_to_cr` (`app/routers/change_requests.py` lines 221 to 289).
On a raised error the database writes roll back; blob-store writes that
already happened (cleanup of a replaced entry, staging upload) persist. -/
def add_file_to_cr (user : User) (cr_id : Nat) (req : AddFileRequest) (st : St) :
    Except HTTPError ChangeRequestFile × St :=
  if !(require_role WRITE_ROLES user) then
    (Except.error ⟨403, "Insufficient permissions"⟩, st)
  else
    match find_cr st cr_id with
    | none => (Except.error ⟨404, "Change request not found"⟩, st)
    | some cr =>
      if cr.author_id != user.id && user.role != UserRole.admin then
        (Except.error ⟨403, "Only the author or admin can modify files"⟩, st)
      else if !(cr.status == CRStatus.draft || cr.status == CRStatus.rejected) then
        (Except.error ⟨400, "Can only modify files in draft or rejected CRs"⟩, st)
      else
        let file_path := strip_slashes req.file_path
        if file_path == "" then
          (Except.error ⟨400, "File path is required"⟩, st)
        else if !(req.action == FileAction.create || req.action == FileAction.edit ||
                  req.action == FileAction.delete) then
          (Except.error ⟨400, "Action must be create, edit, or delete"⟩, st)
        else
          let existing := (cr_files_of st cr_id).filter (fun f => f.file_path == file_path)
          let s3a := existing.foldl
            (fun s f => match f.staging_s3_key with
              | some k => s3_delete s k
              | none => s) st.s3
          let files_a := st.cr_files.filter
            (fun f => !(f.change_request_id == cr_id && f.file_path == file_path))
          if (req.action == FileAction.create || req.action == FileAction.edit) &&
             req.content == none then
            (Except.error ⟨400, "Content is required for create/edit actions"⟩,
             { st with s3 := s3a })
          else
            let staged :=
              if req.action == FileAction.create || req.action == FileAction.edit then
                match req.content with
                | some c =>
                  let k := generate_staging_key st.next_key
                  (some k, s3_put s3a k c, st.next_key + 1)
                | none => (none, s3a, st.next_key)
              else (none, s3a, st.next_key)
            let latest := get_latest_version st file_path
            let base_version_id :=
              if req.action == FileAction.edit || req.action == FileAction.delete then
                match latest with
                | some fv => if fv.is_delete then none else some fv.id
                | none => none
              else none
            if req.action == FileAction.edit && base_version_id == none then
              (Except.error ⟨404, "File does not exist, use create action"⟩,
               { st with s3 := staged.2.1, next_key := staged.2.2 })
            else
              let crf : ChangeRequestFile :=
                { id := st.next_crf_id, change_request_id := cr_id,
                  file_path := file_path, action := req.action,
                  staging_s3_key := staged.1, base_version_id := base_version_id }
              (Except.ok crf,
               { st with cr_files := files_a ++ [crf], s3 := staged.2.1,
                         next_crf_id := st.next_crf_id + 1, next_key := staged.2.2 })

/-- `remove_file_from_cr` (`app/routers/change_requests.py` lines 294 to 324).
Note: the handler checks author/admin but never checks `cr.status`. -/
def remove_file_from_cr (user : User) (cr_id : Nat) (file_id : Nat) (st : St) :
    Except HTTPError Unit × St :=
  if !(require_role WRITE_ROLES user) then
    (Except.error ⟨403, "Insufficient permissions"⟩, st)
  else
    match find_cr st cr_id with
    | none => (Except.error ⟨404, "Change request not found"⟩, st)
    | some cr =>
      if cr.author_id != user.id && user.role != UserRole.admin then
        (Except.error ⟨403, "Only the author or admin can modify files"⟩, st)
      else
        match st.cr_files.find?
            (fun f => f.id == file_id && f.change_request_id == cr_id) with
        | none => (Except.error ⟨404, "File entry not found"⟩, st)
        | some crf =>
          let s3a := match crf.staging_s3_key with
            | some k => s3_delete st.s3 k
            | none => st.s3
          (Except.ok (),
           { st with s3 := s3a,
                     cr_files := st.cr_files.filter
                       (fun f => !(f.id == file_id && f.change_request_id == cr_id)) })

/-- `submit_for_review` (`app/routers/change_requests.py` lines 383 to 413). -/
def submit_for_review (user : User) (cr_id : Nat) (st : St) :
    Except HTTPError String × St :=
  if !(require_role WRITE_ROLES user) then
    (Except.error ⟨403, "Insufficient permissions"⟩, st)
  else
    match find_cr st cr_id with
    | none => (Except.error ⟨404, "Change request not found"⟩, st)
    | some cr =>
      if cr.author_id != user.id && user.role != UserRole.admin then
        (Except.error ⟨403, "Only the author can submit for review"⟩, st)
      else if !(cr.status == CRStatus.draft || cr.status == CRStatus.rejected) then
        (Except.error ⟨400, "Can only submit draft or rejected CRs"⟩, st)
      else if (cr_files_of st cr_id).isEmpty then
        (Except.error ⟨400, "Cannot submit a CR with no files"⟩, st)
      else
        let cr1 := { cr with status := CRStatus.pending_review,
                             review_comment := none, reviewer_id := none,
                             reviewed_at := none, updated_at := st.now }
        (Except.ok CRStatus.pending_review, set_cr st cr1)

/-- Request body of `POST /api/cr/:id/review`. -/
structure ReviewRequest where
  action : String
  comment : String
deriving Repr, DecidableEq

/-- `review_change_request` (`app/routers/change_requests.py` lines 418 to 451). -/
def review_change_request (user : User) (cr_id : Nat) (req : ReviewRequest) (st : St) :
    Except HTTPError String × St :=
  if !(require_role [UserRole.admin, UserRole.approver] user) then
    (Except.error ⟨403, "Insufficient permissions"⟩, st)
  else
    match find_cr st cr_id with
    | none => (Except.error ⟨404, "Change request not found"⟩, st)
    | some cr =>
      if cr.status != CRStatus.pending_review then
        (Except.error ⟨400, "CR is not pending review"⟩, st)
      else if cr.author_id == user.id && user.role != UserRole.admin then
        (Except.error ⟨400, "Cannot review your own change request"⟩, st)
      else if !(req.action == "approve" || req.action == "reject") then
        (Except.error ⟨400, "Action must be approve or reject"⟩, st)
      else
        let newStatus :=
          if req.action == "approve" then CRStatus.approved else CRStatus.rejected
        let cr1 := { cr with status := newStatus, reviewer_id := some user.id,
                             review_comment := some req.comment,
                             reviewed_at := some st.now, updated_at := st.now }
        (Except.ok newStatus, set_cr st cr1)

/-- One step of the merge loop of `merge_change_request` (lines 476 to 522):
commit a single staged operation.  An error carries the state reached so
far, so that blob-store effects survive the metadata rollback. -/
def merge_apply_one (sha256_hex : Bytes → String) (cr : ChangeRequest)
    (st : St) (crf : ChangeRequestFile) : Except (HTTPError × St) St :=
  if crf.action == FileAction.create || crf.action == FileAction.edit then
    match crf.staging_s3_key with
    | none => Except.ok st
    | some skey =>
      match s3_get st.s3 skey with
      | none => Except.error (⟨500, "Internal Server Error"⟩, st)
      | some content =>
        let content_hash := sha256_hex content
        let next_ver := get_next_version st crf.file_path
        let version_key := generate_version_key st.next_key
        let s3a := s3_put st.s3 version_key content
        let s3b := s3_put s3a crf.file_path content
        let fv : FileVersion :=
          { id := st.next_fv_id, file_path := crf.file_path, version := next_ver,
            s3_key := version_key, size := content.length,
            content_hash := content_hash, author_id := cr.author_id,
            message := "CR #" ++ toString cr.id ++ ": " ++ cr.title,
            is_delete := false }
        Except.ok { st with file_versions := st.file_versions ++ [fv],
                            s3 := s3_delete s3b skey,
                            next_fv_id := st.next_fv_id + 1,
                            next_key := st.next_key + 1 }
  else if crf.action == FileAction.delete then
    let next_ver := get_next_version st crf.file_path
    let fv : FileVersion :=
      { id := st.next_fv_id, file_path := crf.file_path, version := next_ver,
        s3_key := "", size := 0, content_hash := "deleted",
        author_id := cr.author_id,
        message := "CR #" ++ toString cr.id ++ ": Delete " ++ crf.file_path,
        is_delete := true }
    Except.ok { st with file_versions := st.file_versions ++ [fv],
                        s3 := s3_delete st.s3 crf.file_path,
                        next_fv_id := st.next_fv_id + 1 }
  else Except.ok st

/-- The per-operation loop of `merge_change_request`. -/
def merge_loop (sha256_hex : Bytes → String) (cr : ChangeRequest) (st : St) :
    List ChangeRequestFile → Except (HTTPError × St) St
  | [] => Except.ok st
  | crf :: rest =>
    match merge_apply_one sha256_hex cr st crf with
    | Except.ok st1 => merge_loop sha256_hex cr st1 rest
    | Except.error e => Except.error e

/-- `merge_change_request` (`app/routers/change_requests.py` lines 456 to 534).
On a mid-loop storage error the metadata transaction rolls back while the
blob-store effects performed so far persist. -/
def merge_change_request (sha256_hex : Bytes → String) (user : User) (cr_id : Nat)
    (st : St) : Except HTTPError String × St :=
  if !(require_role WRITE_ROLES user) then
    (Except.error ⟨403, "Insufficient permissions"⟩, st)
  else
    match find_cr st cr_id with
    | none => (Except.error ⟨404, "Change request not found"⟩, st)
    | some cr =>
      if cr.status != CRStatus.approved then
        (Except.error ⟨400, "CR must be approved before merging"⟩, st)
      else
        match merge_loop sha256_hex cr st (cr_files_of st cr_id) with
        | Except.error e =>
          (Except.error e.1,
           { e.2 with file_versions := st.file_versions,
                      change_requests := st.change_requests,
                      cr_files := st.cr_files, next_fv_id := st.next_fv_id })
        | Except.ok st1 =>
          let cr1 := { cr with status := CRStatus.merged, merged_at := some st.now,
                               updated_at := st.now }
          (Except.ok CRStatus.merged, set_cr st1 cr1)

/-- `_get_or_create_draft_cr` (`app/routers/files.py` lines 115 to 152): pick
the author's most recently updated draft, or create an auto-draft. -/
def get_or_create_draft_cr (user : User) (st : St) : ChangeRequest × St :=
  let drafts := st.change_requests.filter
    (fun c => c.author_id == user.id && c.status == CRStatus.draft)
  match drafts.foldl
      (fun acc c =>
        match acc with
        | none => some c
        | some b => if c.updated_at > b.updated_at then some c else some b) none with
  | some cr => (cr, st)
  | none =>
    let cr : ChangeRequest :=
      { id := st.next_cr_id, title := "Changes by " ++ user.username,
        description := "Auto-created draft. Edit the title before submitting.",
        status := CRStatus.draft, author_id := user.id, reviewer_id := none,
        review_comment := none, reviewed_at := none, merged_at := none,
        updated_at := st.now }
    (cr, { st with change_requests := st.change_requests ++ [cr],
                   next_cr_id := st.next_cr_id + 1 })

/-- `_stage_file_in_cr` (`app/routers/files.py` lines 155 to 210): upsert the
staged operation for a path inside a draft change request. -/
def stage_file_in_cr (cr : ChangeRequest) (file_path : String) (action : String)
    (content_bytes : Option Bytes) (st : St) : ChangeRequestFile × St :=
  let existing := (cr_files_of st cr.id).filter (fun f => f.file_path == file_path)
  let s3a := existing.foldl
    (fun s f => match f.staging_s3_key with
      | some k => s3_delete s k
      | none => s) st.s3
  let files_a := st.cr_files.filter
    (fun f => !(f.change_request_id == cr.id && f.file_path == file_path))
  let staged :=
    if (action == FileAction.create || action == FileAction.edit) &&
       content_bytes != none then
      match content_bytes with
      | some c =>
        let k := generate_staging_key st.next_key
        (some k, s3_put s3a k c, st.next_key + 1)
      | none => (none, s3a, st.next_key)
    else (none, s3a, st.next_key)
  let base_version_id :=
    if action == FileAction.edit || action == FileAction.delete then
      match get_latest_version st file_path with
      | some fv => if fv.is_delete then none else some fv.id
      | none => none
    else none
  let crf : ChangeRequestFile :=
    { id := st.next_crf_id, change_request_id := cr.id, file_path := file_path,
      action := action, staging_s3_key := staged.1,
      base_version_id := base_version_id }
  (crf, { st with cr_files := files_a ++ [crf], s3 := staged.2.1,
                  next_crf_id := st.next_crf_id + 1, next_key := staged.2.2 })

/-- Request body of `POST /api/files/save`, content already UTF-8 encoded. -/
structure SaveFileRequest where
  path : String
  content : Bytes
  message : String
deriving Repr, DecidableEq

/-- `save_file` (`app/routers/files.py` lines 336 to 383). -/
def save_file (user : User) (req : SaveFileRequest) (st : St) :
    Except HTTPError (Nat × String) × St :=
  if !(require_role WRITE_ROLES user) then
    (Except.error ⟨403, "Insufficient permissions"⟩, st)
  else
    let path := strip_slashes req.path
    if path == "" then (Except.error ⟨400, "Path is required"⟩, st)
    else if starts_with path "_" then
      (Except.error ⟨400, "Paths starting with _ are reserved"⟩, st)
    else
      let is_new := match get_latest_version st path with
        | none => true
        | some fv => fv.is_delete
      let action := if is_new then FileAction.create else FileAction.edit
      let picked := get_or_create_draft_cr user st
      let retitle := req.message != "" && starts_with picked.1.title "Changes by "
      let cr1 := if retitle then { picked.1 with title := req.message } else picked.1
      let st2 := if retitle then set_cr picked.2 cr1 else picked.2
      let stagedRes := stage_file_in_cr cr1 path action (some req.content) st2
      (Except.ok (cr1.id, action), stagedRes.2)

/-- `settings.max_file_size_mb` (`app/config.py`, default 100). -/
def max_file_size_mb : Nat := 100

/-- `upload_file` (`app/routers/files.py` lines 388 to 419). -/
def upload_file (user : User) (path0 : String) (message : String)
    (content : Bytes) (st : St) : Except HTTPError (Nat × String) × St :=
  if !(require_role WRITE_ROLES user) then
    (Except.error ⟨403, "Insufficient permissions"⟩, st)
  else
    let path := strip_slashes path0
    if path == "" then (Except.error ⟨400, "Path is required"⟩, st)
    else if starts_with path "_" then
      (Except.error ⟨400, "Paths starting with _ are reserved"⟩, st)
    else if content.length > max_file_size_mb * 1024 * 1024 then
      (Except.error ⟨413, "File exceeds size limit"⟩, st)
    else
      let is_new := match get_latest_version st path with
        | none => true
        | some fv => fv.is_delete
      let action := if is_new then FileAction.create else FileAction.edit
      let picked := get_or_create_draft_cr user st
      let retitle := message != "" && starts_with picked.1.title "Changes by "
      let cr1 := if retitle then { picked.1 with title := message } else picked.1
      let st2 := if retitle then set_cr picked.2 cr1 else picked.2
      let stagedRes := stage_file_in_cr cr1 path action (some content) st2
      (Except.ok (cr1.id, action), stagedRes.2)

/-- `create_folder` (`app/routers/files.py` lines 457 to 469). -/
def create_folder (user : User) (path0 : String) (st : St) :
    Except HTTPError String × St :=
  if !(require_role WRITE_ROLES user) then
    (Except.error ⟨403, "Insufficient permissions"⟩, st)
  else
    let path := strip_slashes path0
    if path == "" then (Except.error ⟨400, "Path is required"⟩, st)
    else if starts_with path "_" then
      (Except.error ⟨400, "Paths starting with _ are reserved"⟩, st)
    else
      (Except.ok path, { st with s3 := s3_put st.s3 (path ++ "/") [] })

/-- `delete_file` (`app/routers/files.py` lines 424 to 452).  Uses only
`get_current_user`: a non-write-capable user may proceed when they authored
the latest version of the path. -/
def delete_file (user : User) (path0 : String) (st : St) :
    Except HTTPError Nat × St :=
  let path := strip_slashes path0
  match get_latest_version st path with
  | none => (Except.error ⟨404, "File not found or already deleted"⟩, st)
  | some latest =>
    if latest.is_delete then
      (Except.error ⟨404, "File not found or already deleted"⟩, st)
    else if !(require_role WRITE_ROLES user) && latest.author_id != user.id then
      (Except.error ⟨403, "Insufficient permissions to delete this file"⟩, st)
    else
      let picked := get_or_create_draft_cr user st
      let stagedRes := stage_file_in_cr picked.1 path FileAction.delete none picked.2
      (Except.ok picked.1.id, stagedRes.2)

/-- `restore_version` (`app/routers/files.py` lines 541 to 570). -/
def restore_version (user : User) (path : String) (version : Nat) (st : St) :
    Except HTTPError Nat × St :=
  if !(require_role WRITE_ROLES user) then
    (Except.error ⟨403, "Insufficient permissions"⟩, st)
  else
    match st.file_versions.find?
        (fun v => v.file_path == path && v.version == version) with
    | none => (Except.error ⟨404, "Version not found"⟩, st)
    | some target =>
      if target.is_delete then
        (Except.error ⟨400, "Cannot restore a deletion version"⟩, st)
      else
        match s3_get st.s3 target.s3_key with
        | none => (Except.error ⟨500, "Internal Server Error"⟩, st)
        | some content =>
          let picked := get_or_create_draft_cr user st
          let stagedRes :=
            stage_file_in_cr picked.1 path FileAction.edit (some content) picked.2
          (Except.ok picked.1.id, stagedRes.2)

/-- Response of `GET /api/files/content`, with `content` kept at the byte
level (prior to the UTF-8 decode / binary branching of the handler). -/
structure FileDetail where
  path : String
  content : Bytes
  size : Nat
  version : Nat
  content_hash : String
  message : String
deriving Repr, DecidableEq

/-- The latest-version branch of `get_file_content` (no explicit version). -/
def get_file_content_latest (sha256_hex : Bytes → String) (path : String)
    (st : St) : Except HTTPError FileDetail :=
  match get_latest_version st path with
  | some fv =>
    if fv.is_delete then Except.error ⟨410, "File has been deleted"⟩
    else
      match s3_get st.s3 path with
      | none => Except.error ⟨404, "File not found"⟩
      | some b =>
        Except.ok { path := path, content := b, size := b.length,
                    version := fv.version, content_hash := fv.content_hash,
                    message := fv.message }
  | none =>
    match s3_get st.s3 path with
    | none => Except.error ⟨404, "File not found"⟩
    | some b =>
      Except.ok { path := path, content := b, size := b.length, version := 0,
                  content_hash := sha256_hex b, message := "" }

/-- `get_file_content` (`app/routers/files.py` lines 287 to 331).  A version
argument of `0` is falsy in Python, hence treated as absent. -/
def get_file_content (sha256_hex : Bytes → String) (path : String)
    (version : Option Nat) (st : St) : Except HTTPError FileDetail :=
  match version with
  | some v =>
    if v == 0 then get_file_content_latest sha256_hex path st
    else
      match st.file_versions.find?
          (fun fv => fv.file_path == path && fv.version == v) with
      | none => Except.error ⟨404, "Version not found for this path"⟩
      | some fv =>
        if fv.is_delete then
          Except.error ⟨410, "This version is a deletion record"⟩
        else
          match s3_get st.s3 fv.s3_key with
          | none => Except.error ⟨404, "Version content not found in storage"⟩
          | some b =>
            Except.ok { path := path, content := b, size := b.length,
                        version := fv.version, content_hash := fv.content_hash,
                        message := fv.message }
  | none => get_file_content_latest sha256_hex path st

/-- `public_file_raw` (`app/routers/pages.py` lines 260 to 295): public read
resolved by path, returning the raw canonical bytes. -/
def public_file_raw (path : String) (st : St) : Except HTTPError Bytes :=
  match st.file_shares.find? (fun s => s.file_path == path) with
  | none => Except.error ⟨404, "File not found or not public"⟩
  | some share =>
    if !share.is_public then Except.error ⟨404, "File not found or not public"⟩
    else if share.is_archived then Except.error ⟨410, "File has been archived"⟩
    else
      match get_latest_version st share.file_path with
      | none => Except.error ⟨404, "File not found or deleted"⟩
      | some fv =>
        if fv.is_delete then Except.error ⟨404, "File not found or deleted"⟩
        else
          match s3_get st.s3 share.file_path with
          | none => Except.error ⟨404, "File content not found"⟩
          | some b => Except.ok b

/-- The rendered result of the token-based public route: either the archived
error template (an ordinary 200 page, not an HTTP error), a text preview
page, or a binary download. -/
inductive PublicView where
  | errorPage (file_path : String) (message : String)
  | textPage (file_path : String) (content : Bytes) (size : Nat)
  | download (content : Bytes)
deriving Repr, DecidableEq

/-- `public_file` (`app/routers/pages.py` lines 207 to 257): public read
resolved by token.  An archived share renders an error template instead of
raising an HTTP error. -/
def public_file (token : String) (st : St) : Except HTTPError PublicView :=
  match st.file_shares.find? (fun s => s.token == token) with
  | none => Except.error ⟨404, "File not found or not public"⟩
  | some share =>
    if !share.is_public then Except.error ⟨404, "File not found or not public"⟩
    else if share.is_archived then
      Except.ok (PublicView.errorPage share.file_path
        "This file has been archived and is no longer available.")
    else
      match get_latest_version st share.file_path with
      | none => Except.error ⟨404, "File not found or deleted"⟩
      | some fv =>
        if fv.is_delete then Except.error ⟨404, "File not found or deleted"⟩
        else
          match s3_get st.s3 share.file_path with
          | none => Except.error ⟨404, "File content not found"⟩
          | some b =>
            if is_text_file share.file_path then
              Except.ok (PublicView.textPage share.file_path b b.length)
            else Except.ok (PublicView.download b)

/-- Request body of `POST /api/cr/create`. -/
structure CreateCRRequest where
  title : String
  description : String
deriving Repr, DecidableEq

/-- `create_change_request` (`app/routers/change_requests.py` lines 167 to 191). -/
def create_change_request (user : User) (req : CreateCRRequest) (st : St) :
    Except HTTPError Nat × St :=
  if !(require_role WRITE_ROLES user) then
    (Except.error ⟨403, "Insufficient permissions"⟩, st)
  else if req.title.trim == "" then
    (Except.error ⟨400, "Title is required"⟩, st)
  else
    let cr : ChangeRequest :=
      { id := st.next_cr_id, title := req.title.trim,
        description := req.description, status := CRStatus.draft,
        author_id := user.id, reviewer_id := none, review_comment := none,
        reviewed_at := none, merged_at := none, updated_at := st.now }
    (Except.ok cr.id,
     { st with change_requests := st.change_requests ++ [cr],
               next_cr_id := st.next_cr_id + 1 })

/-! ### Helper lemmas and concrete fixtures -/

instance {ε α : Type} [DecidableEq ε] [DecidableEq α] : DecidableEq (Except ε α) :=
  fun x y =>
    match x, y with
    | Except.ok a, Except.ok b =>
      if h : a = b then Decidable.isTrue (by rw [h])
      else Decidable.isFalse (fun hh => h (Except.ok.inj hh))
    | Except.error a, Except.error b =>
      if h : a = b then Decidable.isTrue (by rw [h])
      else Decidable.isFalse (fun hh => h (Except.error.inj hh))
    | Except.ok _, Except.error _ => Decidable.isFalse (fun hh => Except.noConfusion hh)
    | Except.error _, Except.ok _ => Decidable.isFalse (fun hh => Except.noConfusion hh)

theorem beq_eq_false_of_startsWith (k p : String) (hk : starts_with k "_" = true)
    (hp : starts_with p "_" = false) : (k == p) = false := by
  cases h : k == p with
  | false => rfl
  | true =>
    have : k = p := eq_of_beq h
    rw [this] at hk
    rw [hk] at hp
    exact absurd hp (by simp)

theorem beq_eq_false_of_startsWith_rev (k p : String) (hk : starts_with k "_" = true)
    (hp : starts_with p "_" = false) : (p == k) = false := by
  cases h : p == k with
  | false => rfl
  | true =>
    have : p = k := eq_of_beq h
    rw [this, hk] at hp
    exact absurd hp (by simp)

/-- A demonstration admin user. -/
def uAdmin : User := { id := 9, username := "root", role := "admin" }

/-- A demonstration approver user. -/
def uApprover : User := { id := 2, username := "bob", role := "approver" }

/-- A demonstration editor user. -/
def uEditor : User := { id := 1, username := "alice", role := "editor" }

/-- A demonstration viewer user. -/
def uViewer : User := { id := 5, username := "eve", role := "viewer" }

/-- A change-request row with the given id, status and author, no reviewer. -/
def mkCR (i : Nat) (status : String) (author : Nat) : ChangeRequest :=
  { id := i, title := "T", description := "", status := status,
    author_id := author, reviewer_id := none, review_comment := none,
    reviewed_at := none, merged_at := none, updated_at := 0 }

/-- A state holding the given rows and an empty blob store. -/
def mkSt (fvs : List FileVersion) (crs : List ChangeRequest)
    (crfs : List ChangeRequestFile) (shares : List FileShare)
    (s3 : List (String × Bytes)) : St :=
  { file_versions := fvs, change_requests := crs, cr_files := crfs,
    file_shares := shares, s3 := s3, next_fv_id := 1, next_cr_id := 10,
    next_crf_id := 1, next_key := 1, now := 0 }

/-! ### Claim C4 -/

/-- Claim C4 (confirmed): the change-set state-machine guards hold.  Merge
fails with 400 Conflict and changes nothing when the status is not
`approved`; review fails with 400 Conflict when a non-admin reviewer is the
author (while an admin may review their own change set); submit fails with
400 Conflict on a change set with zero staged operations. -/
theorem c4_state_machine_guards (sha256_hex : Bytes → String) (u : User)
    (i : Nat) (st : St) (cr : ChangeRequest) (req : ReviewRequest) :
    (require_role WRITE_ROLES u = true → find_cr st i = some cr →
      (cr.status == CRStatus.approved) = false →
      merge_change_request sha256_hex u i st =
        (Except.error ⟨400, "CR must be approved before merging"⟩, st)) ∧
    (require_role [UserRole.admin, UserRole.approver] u = true →
      find_cr st i = some cr → cr.status = CRStatus.pending_review →
      cr.author_id = u.id → (u.role == UserRole.admin) = false →
      review_change_request u i req st =
        (Except.error ⟨400, "Cannot review your own change request"⟩, st)) ∧
    (u.role = UserRole.admin → find_cr st i = some cr →
      cr.status = CRStatus.pending_review → cr.author_id = u.id →
      req.action = "approve" →
      (review_change_request u i req st).1 = Except.ok CRStatus.approved) ∧
    (require_role WRITE_ROLES u = true → find_cr st i = some cr →
      cr.author_id = u.id → cr.status = CRStatus.draft →
      cr_files_of st i = [] →
      submit_for_review u i st =
        (Except.error ⟨400, "Cannot submit a CR with no files"⟩, st)) := by
  refine ⟨?_, ?_, ?_, ?_⟩
  · intro h1 h2 h3
    simp [merge_change_request, h1, h2, h3, bne]
  · intro h1 h2 h3 h4 h5
    simp [review_change_request, h1, h2, h3, h4, h5, bne, CRStatus.pending_review]
  · intro h1 h2 h3 h4 h5
    simp [review_change_request, require_role, h1, h2, h3, h4, h5, bne,
      CRStatus.pending_review, UserRole.admin, UserRole.approver]
  · intro h1 h2 h3 h4 h5
    simp [submit_for_review, h1, h2, h3, h4, h5, bne, CRStatus.draft,
      UserRole.admin, List.isEmpty]

/-- Witness for C4 at concrete inputs. -/
theorem c4_state_machine_guards_witness :
    merge_change_request (fun _ => "") uAdmin 1 (mkSt [] [mkCR 1 "draft" 1] [] [] []) =
      (Except.error ⟨400, "CR must be approved before merging"⟩,
       mkSt [] [mkCR 1 "draft" 1] [] [] []) ∧
    review_change_request uApprover 1 ⟨"approve", ""⟩
        (mkSt [] [mkCR 1 "pending_review" 2] [] [] []) =
      (Except.error ⟨400, "Cannot review your own change request"⟩,
       mkSt [] [mkCR 1 "pending_review" 2] [] [] []) ∧
    (review_change_request uAdmin 1 ⟨"approve", ""⟩
        (mkSt [] [mkCR 1 "pending_review" 9] [] [] [])).1 = Except.ok "approved" ∧
    submit_for_review uEditor 1 (mkSt [] [mkCR 1 "draft" 1] [] [] []) =
      (Except.error ⟨400, "Cannot submit a CR with no files"⟩,
       mkSt [] [mkCR 1 "draft" 1] [] [] []) := by
  have h := c4_state_machine_guards (fun _ => "") uAdmin 1
    (mkSt [] [mkCR 1 "draft" 1] [] [] []) (mkCR 1 "draft" 1) ⟨"approve", ""⟩
  have h2 := c4_state_machine_guards (fun _ => "") uApprover 1
    (mkSt [] [mkCR 1 "pending_review" 2] [] [] []) (mkCR 1 "pending_review" 2)
    ⟨"approve", ""⟩
  have h3 := c4_state_machine_guards (fun _ => "") uAdmin 1
    (mkSt [] [mkCR 1 "pending_review" 9] [] [] []) (mkCR 1 "pending_review" 9)
    ⟨"approve", ""⟩
  have h4 := c4_state_machine_guards (fun _ => "") uEditor 1
    (mkSt [] [mkCR 1 "draft" 1] [] [] []) (mkCR 1 "draft" 1) ⟨"approve", ""⟩
  exact ⟨h.1 (by decide) (by decide) (by decide),
         h2.2.1 (by decide) (by decide) (by decide) (by decide) (by decide),
         h3.2.2.1 (by decide) (by decide) (by decide) (by decide) (by decide),
         h4.2.2.2 (by decide) (by decide) (by decide) (by decide) (by decide)⟩

/-! ### Claim C1 -/

/-- Counterexample to claim C1 as stated: on a ChangeSet whose status is
`merged` (a terminal state), remove-operation nevertheless succeeds, deletes
the StagedOperation row and discards its staged blob. -/
theorem c1_counterexample :
    (find_cr (mkSt [] [mkCR 1 "merged" 1]
        [⟨1, 1, "a.txt", "edit", some "_staging/7", none⟩] []
        [("_staging/7", [1])]) 1).map (fun c => c.status) = some "merged" ∧
    remove_file_from_cr uAdmin 1 1 (mkSt [] [mkCR 1 "merged" 1]
        [⟨1, 1, "a.txt", "edit", some "_staging/7", none⟩] []
        [("_staging/7", [1])]) =
      (Except.ok (), mkSt [] [mkCR 1 "merged" 1] [] [] []) := by
  constructor
  · decide
  · decide

/-- Claim C1 (amended): add-operation on a ChangeSet whose status is not
`draft` or `rejected` (in particular `merged`, `closed`, `approved` or
`pending_review`) fails with 400 and changes nothing; remove-operation,
however, never consults the status: whenever the actor is the author (or an
admin) and the StagedOperation exists, it succeeds — even on a merged or
closed ChangeSet — deleting the row and discarding its staged blob. -/
theorem c1_terminal_state_mutation (u : User) (i fid : Nat) (st : St)
    (cr : ChangeRequest) (req : AddFileRequest) (crf : ChangeRequestFile) :
    (require_role WRITE_ROLES u = true → find_cr st i = some cr →
      cr.author_id = u.id →
      (cr.status == CRStatus.draft) = false →
      (cr.status == CRStatus.rejected) = false →
      add_file_to_cr u i req st =
        (Except.error ⟨400, "Can only modify files in draft or rejected CRs"⟩, st)) ∧
    (require_role WRITE_ROLES u = true → find_cr st i = some cr →
      cr.author_id = u.id →
      st.cr_files.find? (fun f => f.id == fid && f.change_request_id == i) =
        some crf →
      (remove_file_from_cr u i fid st).1 = Except.ok () ∧
      (remove_file_from_cr u i fid st).2.cr_files =
        st.cr_files.filter (fun f => !(f.id == fid && f.change_request_id == i))) := by
  constructor
  · intro h1 h2 h3 h4 h5
    simp [add_file_to_cr, h1, h2, h3, h4, h5, bne]
  · intro h1 h2 h3 h4
    simp [remove_file_from_cr, h1, h2, h3, h4, bne]

/-- Witness for the amended C1 at concrete inputs: add-operation is refused
on a merged ChangeSet, while remove-operation succeeds on the same merged
ChangeSet. -/
theorem c1_terminal_state_mutation_witness :
    add_file_to_cr uAdmin 1 ⟨"b.txt", "create", some [2]⟩
        (mkSt [] [mkCR 1 "merged" 9]
          [⟨1, 1, "a.txt", "edit", some "_staging/7", none⟩] []
          [("_staging/7", [1])]) =
      (Except.error ⟨400, "Can only modify files in draft or rejected CRs"⟩,
       mkSt [] [mkCR 1 "merged" 9]
         [⟨1, 1, "a.txt", "edit", some "_staging/7", none⟩] []
         [("_staging/7", [1])]) ∧
    (remove_file_from_cr uAdmin 1 1 (mkSt [] [mkCR 1 "merged" 9]
        [⟨1, 1, "a.txt", "edit", some "_staging/7", none⟩] []
        [("_staging/7", [1])])).1 = Except.ok () := by
  have h := c1_terminal_state_mutation uAdmin 1 1
    (mkSt [] [mkCR 1 "merged" 9]
      [⟨1, 1, "a.txt", "edit", some "_staging/7", none⟩] []
      [("_staging/7", [1])])
    (mkCR 1 "merged" 9) ⟨"b.txt", "create", some [2]⟩
    ⟨1, 1, "a.txt", "edit", some "_staging/7", none⟩
  exact ⟨h.1 (by decide) (by decide) (by decide) (by decide) (by decide),
         (h.2 (by decide) (by decide) (by decide) (by decide)).1⟩

/-! ### Claim C2 -/

theorem ne_empty_of_startsWith (s : String) (h : starts_with s "_" = true) :
    (s == "") = false := by
  cases hh : s == "" with
  | false => rfl
  | true =>
    have hs : s = "" := eq_of_beq hh
    rw [hs] at h
    exact absurd h (by decide)

/-- Counterexample to claim C2 as stated: add-operation on a change set
accepts a path beginning with the reserved-prefix sentinel and stages a
blob for it, instead of rejecting it. -/
theorem c2_counterexample :
    (starts_with "_secret" "_") = true ∧
    add_file_to_cr uEditor 1 ⟨"_secret", "create", some [7]⟩
        (mkSt [] [mkCR 1 "draft" 1] [] [] []) =
      (Except.ok ⟨1, 1, "_secret", "create", some "_staging/1", none⟩,
       { mkSt [] [mkCR 1 "draft" 1]
           [⟨1, 1, "_secret", "create", some "_staging/1", none⟩] []
           [("_staging/1", [7])] with next_crf_id := 2, next_key := 2 }) := by
  constructor
  · decide
  · decide

/-- Claim C2 (amended): stage-save, upload and create-folder reject any path
that (after stripping slashes) begins with the reserved-prefix sentinel,
with error 400 and no state change; add-operation on a change set, however,
performs no reserved-prefix check and stages such a path successfully. -/
theorem c2_reserved_prefix_guards (u : User) (i : Nat) (st : St)
    (cr : ChangeRequest) (sreq : SaveFileRequest) (path0 msg : String)
    (content : Bytes) (areq : AddFileRequest) (c : Bytes) :
    (require_role WRITE_ROLES u = true →
      starts_with (strip_slashes sreq.path) "_" = true →
      save_file u sreq st =
        (Except.error ⟨400, "Paths starting with _ are reserved"⟩, st)) ∧
    (require_role WRITE_ROLES u = true →
      starts_with (strip_slashes path0) "_" = true →
      upload_file u path0 msg content st =
        (Except.error ⟨400, "Paths starting with _ are reserved"⟩, st)) ∧
    (require_role WRITE_ROLES u = true →
      starts_with (strip_slashes path0) "_" = true →
      create_folder u path0 st =
        (Except.error ⟨400, "Paths starting with _ are reserved"⟩, st)) ∧
    (require_role WRITE_ROLES u = true → find_cr st i = some cr →
      cr.author_id = u.id → cr.status = CRStatus.draft →
      starts_with (strip_slashes areq.file_path) "_" = true →
      areq.action = "create" → areq.content = some c →
      (add_file_to_cr u i areq st).1 =
        Except.ok ⟨st.next_crf_id, i, strip_slashes areq.file_path, "create",
          some (generate_staging_key st.next_key), none⟩) := by
  refine ⟨?_, ?_, ?_, ?_⟩
  · intro h1 h2
    simp [save_file, h1, h2, ne_empty_of_startsWith _ h2]
  · intro h1 h2
    simp [upload_file, h1, h2, ne_empty_of_startsWith _ h2]
  · intro h1 h2
    simp [create_folder, h1, h2, ne_empty_of_startsWith _ h2]
  · intro h1 h2 h3 h4 h5 h6 h7
    simp [add_file_to_cr, h1, h2, h3, h4, h5, h6, h7, bne,
      ne_empty_of_startsWith _ h5, CRStatus.draft, FileAction.create,
      FileAction.edit, FileAction.delete]

/-- Witness for the amended C2 at concrete inputs. -/
theorem c2_reserved_prefix_guards_witness :
    save_file uEditor ⟨"_x/y", [1], ""⟩ (mkSt [] [] [] [] []) =
      (Except.error ⟨400, "Paths starting with _ are reserved"⟩,
       mkSt [] [] [] [] []) ∧
    upload_file uEditor "_x/y" "" [1] (mkSt [] [] [] [] []) =
      (Except.error ⟨400, "Paths starting with _ are reserved"⟩,
       mkSt [] [] [] [] []) ∧
    create_folder uEditor "_x" (mkSt [] [] [] [] []) =
      (Except.error ⟨400, "Paths starting with _ are reserved"⟩,
       mkSt [] [] [] [] []) ∧
    (add_file_to_cr uEditor 1 ⟨"_x/y", "create", some [1]⟩
        (mkSt [] [mkCR 1 "draft" 1] [] [] [])).1 =
      Except.ok ⟨1, 1, "_x/y", "create", some "_staging/1", none⟩ := by
  have h := c2_reserved_prefix_guards uEditor 1 (mkSt [] [] [] [] [])
    (mkCR 1 "draft" 1) ⟨"_x/y", [1], ""⟩ "_x/y" "" [1]
    ⟨"_x/y", "create", some [1]⟩ [1]
  have h2 := c2_reserved_prefix_guards uEditor 1 (mkSt [] [mkCR 1 "draft" 1] [] [] [])
    (mkCR 1 "draft" 1) ⟨"_x/y", [1], ""⟩ "_x/y" "" [1]
    ⟨"_x/y", "create", some [1]⟩ [1]
  refine ⟨h.1 (by decide) (by decide), h.2.1 (by decide) (by decide),
          ?_, h2.2.2.2 (by decide) (by decide) (by decide) (by decide)
            (by decide) (by decide) (by decide)⟩
  exact (c2_reserved_prefix_guards uEditor 1 (mkSt [] [] [] [] [])
    (mkCR 1 "draft" 1) ⟨"_x/y", [1], ""⟩ "_x" "" [1]
    ⟨"_x/y", "create", some [1]⟩ [1]).2.2.1 (by decide) (by decide)

/-! ### Claim C9 -/

/-- Counterexample to claim C9 as stated: a viewer (no write capability) who
authored the latest version of a path can stage a delete, and an auto-draft
ChangeSet is created on their behalf instead of the request failing. -/
theorem c9_counterexample :
    require_role WRITE_ROLES uViewer = false ∧
    (delete_file uViewer "a.txt"
        (mkSt [⟨1, "a.txt", 1, "_versions/9", 1, "h", 5, "m", false⟩] [] [] [] [])).1 =
      Except.ok 10 ∧
    ((delete_file uViewer "a.txt"
        (mkSt [⟨1, "a.txt", 1, "_versions/9", 1, "h", 5, "m", false⟩]
          [] [] [] [])).2.change_requests.map
        (fun c => (c.id, c.author_id, c.status))) = [(10, 5, "draft")] := by
  refine ⟨by decide, by decide, by decide⟩

/-- Claim C9 (amended): direct create and the auto-draft paths of stage-save,
upload and restore require write capability — for any actor without it they
fail with 403 and create no ChangeSet; stage-delete, however, also admits a
non-write-capable actor who authored the latest version of the path
(creating an auto-draft on their behalf), and fails without any state
change only when that actor did not author the latest version. -/
theorem c9_write_capability_guards (u : User)
    (st : St) (sreq : SaveFileRequest) (creq : CreateCRRequest)
    (p0 msg : String) (content : Bytes) (ver : Nat) (fv : FileVersion) :
    (require_role WRITE_ROLES u = false →
      save_file u sreq st = (Except.error ⟨403, "Insufficient permissions"⟩, st)) ∧
    (require_role WRITE_ROLES u = false →
      upload_file u p0 msg content st =
        (Except.error ⟨403, "Insufficient permissions"⟩, st)) ∧
    (require_role WRITE_ROLES u = false →
      restore_version u p0 ver st =
        (Except.error ⟨403, "Insufficient permissions"⟩, st)) ∧
    (require_role WRITE_ROLES u = false →
      create_change_request u creq st =
        (Except.error ⟨403, "Insufficient permissions"⟩, st)) ∧
    (require_role WRITE_ROLES u = false →
      get_latest_version st (strip_slashes p0) = none →
      delete_file u p0 st =
        (Except.error ⟨404, "File not found or already deleted"⟩, st)) ∧
    (require_role WRITE_ROLES u = false →
      get_latest_version st (strip_slashes p0) = some fv →
      (fv.author_id == u.id) = false →
      (∃ e, delete_file u p0 st = (Except.error e, st))) ∧
    (require_role WRITE_ROLES u = false →
      get_latest_version st (strip_slashes p0) = some fv →
      fv.is_delete = false → (fv.author_id == u.id) = true →
      (delete_file u p0 st).1 = Except.ok (get_or_create_draft_cr u st).1.id) := by
  refine ⟨?_, ?_, ?_, ?_, ?_, ?_, ?_⟩
  · intro h1
    simp [save_file, h1]
  · intro h1
    simp [upload_file, h1]
  · intro h1
    simp [restore_version, h1]
  · intro h1
    simp [create_change_request, h1]
  · intro h1 h2
    simp [delete_file, h1, h2]
  · intro h1 h2 h3
    cases hd : fv.is_delete with
    | true =>
      refine ⟨⟨404, "File not found or already deleted"⟩, ?_⟩
      simp [delete_file, h1, h2, h3, hd]
    | false =>
      refine ⟨⟨403, "Insufficient permissions to delete this file"⟩, ?_⟩
      simp [delete_file, h1, h2, h3, hd, bne]
  · intro h1 h2 h3 h4
    simp [delete_file, h1, h2, h3, h4, bne]

/-- Witness for the amended C9 at concrete inputs. -/
theorem c9_write_capability_guards_witness :
    save_file uViewer ⟨"a.txt", [1], ""⟩ (mkSt [] [] [] [] []) =
      (Except.error ⟨403, "Insufficient permissions"⟩, mkSt [] [] [] [] []) ∧
    upload_file uViewer "a.txt" "" [1] (mkSt [] [] [] [] []) =
      (Except.error ⟨403, "Insufficient permissions"⟩, mkSt [] [] [] [] []) ∧
    restore_version uViewer "a.txt" 1 (mkSt [] [] [] [] []) =
      (Except.error ⟨403, "Insufficient permissions"⟩, mkSt [] [] [] [] []) ∧
    create_change_request uViewer ⟨"t", ""⟩ (mkSt [] [] [] [] []) =
      (Except.error ⟨403, "Insufficient permissions"⟩, mkSt [] [] [] [] []) ∧
    (∃ e, delete_file uViewer "b.txt"
        (mkSt [⟨1, "b.txt", 1, "k", 1, "h", 2, "m", false⟩] [] [] [] []) =
      (Except.error e,
       mkSt [⟨1, "b.txt", 1, "k", 1, "h", 2, "m", false⟩] [] [] [] [])) ∧
    (delete_file uViewer "b.txt"
        (mkSt [⟨1, "b.txt", 1, "k", 1, "h", 5, "m", false⟩] [] [] [] [])).1 =
      Except.ok 10 := by
  have h1 := c9_write_capability_guards uViewer (mkSt [] [] [] [] [])
    ⟨"a.txt", [1], ""⟩ ⟨"t", ""⟩ "a.txt" "" [1] 1
    ⟨1, "b.txt", 1, "k", 1, "h", 2, "m", false⟩
  have h2 := c9_write_capability_guards uViewer
    (mkSt [⟨1, "b.txt", 1, "k", 1, "h", 2, "m", false⟩] [] [] [] [])
    ⟨"a.txt", [1], ""⟩ ⟨"t", ""⟩ "b.txt" "" [1] 1
    ⟨1, "b.txt", 1, "k", 1, "h", 2, "m", false⟩
  have h3 := c9_write_capability_guards uViewer
    (mkSt [⟨1, "b.txt", 1, "k", 1, "h", 5, "m", false⟩] [] [] [] [])
    ⟨"a.txt", [1], ""⟩ ⟨"t", ""⟩ "b.txt" "" [1] 1
    ⟨1, "b.txt", 1, "k", 1, "h", 5, "m", false⟩
  exact ⟨h1.1 (by decide), h1.2.1 (by decide), h1.2.2.1 (by decide),
         h1.2.2.2.1 (by decide),
         h2.2.2.2.2.2.1 (by decide) (by decide) (by decide),
         h3.2.2.2.2.2.2 (by decide) (by decide) (by decide) (by decide)⟩

/-! ### Claim C3 -/

/-- Counterexample to claim C3 as stated: when the latest FileVersion is a
tombstone the public read fails with 404 NotFound, not 410 Gone; and on the
token route an archived record renders an error page (an ordinary response)
instead of failing with Gone. -/
theorem c3_counterexample :
    public_file_raw "a.txt"
        (mkSt [⟨1, "a.txt", 1, "", 0, "deleted", 1, "m", true⟩] [] []
          [⟨"a.txt", "tok", true, false⟩] []) =
      Except.error ⟨404, "File not found or deleted"⟩ ∧
    public_file "tok2" (mkSt [] [] [] [⟨"b.txt", "tok2", true, true⟩] []) =
      Except.ok (PublicView.errorPage "b.txt"
        "This file has been archived and is no longer available.") := by
  exact ⟨by decide, by decide⟩

/-- Claim C3 (amended): a public read by path fails with 404 NotFound when no
sharing record exists or the record is not public, fails with 410 Gone when
the record is archived, fails with 404 NotFound (not Gone) when the path has
no committed version or its latest version is a tombstone, and otherwise
serves the canonical blob; the token route behaves the same except that an
archived record yields a rendered error page rather than an HTTP error. -/
theorem c3_public_read_gating (st : St) (path token : String)
    (share : FileShare) (fv : FileVersion) (b : Bytes) :
    (st.file_shares.find? (fun s => s.file_path == path) = none →
      public_file_raw path st = Except.error ⟨404, "File not found or not public"⟩) ∧
    (st.file_shares.find? (fun s => s.file_path == path) = some share →
      share.is_public = false →
      public_file_raw path st = Except.error ⟨404, "File not found or not public"⟩) ∧
    (st.file_shares.find? (fun s => s.file_path == path) = some share →
      share.is_public = true → share.is_archived = true →
      public_file_raw path st = Except.error ⟨410, "File has been archived"⟩) ∧
    (st.file_shares.find? (fun s => s.file_path == path) = some share →
      share.is_public = true → share.is_archived = false →
      get_latest_version st share.file_path = none →
      public_file_raw path st = Except.error ⟨404, "File not found or deleted"⟩) ∧
    (st.file_shares.find? (fun s => s.file_path == path) = some share →
      share.is_public = true → share.is_archived = false →
      get_latest_version st share.file_path = some fv → fv.is_delete = true →
      public_file_raw path st = Except.error ⟨404, "File not found or deleted"⟩) ∧
    (st.file_shares.find? (fun s => s.file_path == path) = some share →
      share.is_public = true → share.is_archived = false →
      get_latest_version st share.file_path = some fv → fv.is_delete = false →
      s3_get st.s3 share.file_path = some b →
      public_file_raw path st = Except.ok b) ∧
    (st.file_shares.find? (fun s => s.token == token) = some share →
      share.is_public = true → share.is_archived = true →
      public_file token st = Except.ok (PublicView.errorPage share.file_path
        "This file has been archived and is no longer available.")) := by
  refine ⟨?_, ?_, ?_, ?_, ?_, ?_, ?_⟩
  · intro h1
    simp [public_file_raw, h1]
  · intro h1 h2
    simp [public_file_raw, h1, h2]
  · intro h1 h2 h3
    simp [public_file_raw, h1, h2, h3]
  · intro h1 h2 h3 h4
    simp [public_file_raw, h1, h2, h3, h4]
  · intro h1 h2 h3 h4 h5
    simp [public_file_raw, h1, h2, h3, h4, h5]
  · intro h1 h2 h3 h4 h5 h6
    simp [public_file_raw, h1, h2, h3, h4, h5, h6]
  · intro h1 h2 h3
    simp [public_file, h1, h2, h3]

/-- Witness for the amended C3 at concrete inputs. -/
theorem c3_public_read_gating_witness :
    public_file_raw "n.txt" (mkSt [] [] [] [] []) =
      Except.error ⟨404, "File not found or not public"⟩ ∧
    public_file_raw "p.txt" (mkSt [] [] [] [⟨"p.txt", "t1", false, false⟩] []) =
      Except.error ⟨404, "File not found or not public"⟩ ∧
    public_file_raw "p.txt" (mkSt [] [] [] [⟨"p.txt", "t1", true, true⟩] []) =
      Except.error ⟨410, "File has been archived"⟩ ∧
    public_file_raw "p.txt" (mkSt [] [] [] [⟨"p.txt", "t1", true, false⟩] []) =
      Except.error ⟨404, "File not found or deleted"⟩ ∧
    public_file_raw "p.txt"
        (mkSt [⟨1, "p.txt", 1, "", 0, "deleted", 1, "m", true⟩] [] []
          [⟨"p.txt", "t1", true, false⟩] []) =
      Except.error ⟨404, "File not found or deleted"⟩ ∧
    public_file_raw "p.txt"
        (mkSt [⟨1, "p.txt", 1, "k", 2, "h", 1, "m", false⟩] [] []
          [⟨"p.txt", "t1", true, false⟩] [("p.txt", [3, 4])]) =
      Except.ok [3, 4] ∧
    public_file "t1" (mkSt [] [] [] [⟨"p.txt", "t1", true, true⟩] []) =
      Except.ok (PublicView.errorPage "p.txt"
        "This file has been archived and is no longer available.") := by
  have h1 := c3_public_read_gating (mkSt [] [] [] [] []) "n.txt" "t1"
    ⟨"p.txt", "t1", true, false⟩ ⟨1, "p.txt", 1, "k", 2, "h", 1, "m", false⟩ [3, 4]
  have h2 := c3_public_read_gating (mkSt [] [] [] [⟨"p.txt", "t1", false, false⟩] [])
    "p.txt" "t1" ⟨"p.txt", "t1", false, false⟩
    ⟨1, "p.txt", 1, "k", 2, "h", 1, "m", false⟩ [3, 4]
  have h3 := c3_public_read_gating (mkSt [] [] [] [⟨"p.txt", "t1", true, true⟩] [])
    "p.txt" "t1" ⟨"p.txt", "t1", true, true⟩
    ⟨1, "p.txt", 1, "k", 2, "h", 1, "m", false⟩ [3, 4]
  have h4 := c3_public_read_gating (mkSt [] [] [] [⟨"p.txt", "t1", true, false⟩] [])
    "p.txt" "t1" ⟨"p.txt", "t1", true, false⟩
    ⟨1, "p.txt", 1, "k", 2, "h", 1, "m", false⟩ [3, 4]
  have h5 := c3_public_read_gating
    (mkSt [⟨1, "p.txt", 1, "", 0, "deleted", 1, "m", true⟩] [] []
      [⟨"p.txt", "t1", true, false⟩] []) "p.txt" "t1"
    ⟨"p.txt", "t1", true, false⟩ ⟨1, "p.txt", 1, "", 0, "deleted", 1, "m", true⟩ [3, 4]
  have h6 := c3_public_read_gating
    (mkSt [⟨1, "p.txt", 1, "k", 2, "h", 1, "m", false⟩] [] []
      [⟨"p.txt", "t1", true, false⟩] [("p.txt", [3, 4])]) "p.txt" "t1"
    ⟨"p.txt", "t1", true, false⟩ ⟨1, "p.txt", 1, "k", 2, "h", 1, "m", false⟩ [3, 4]
  exact ⟨h1.1 (by decide), h2.2.1 (by decide) (by decide),
         h3.2.2.1 (by decide) (by decide) (by decide),
         h4.2.2.2.1 (by decide) (by decide) (by decide) (by decide),
         h5.2.2.2.2.1 (by decide) (by decide) (by decide) (by decide) (by decide),
         h6.2.2.2.2.2.1 (by decide) (by decide) (by decide) (by decide) (by decide)
           (by decide),
         h3.2.2.2.2.2.2 (by decide) (by decide) (by decide)⟩

/-! ### Claim C10 -/

/-- Claim C10 (confirmed): at add-operation, staging an edit for a path with
no committed version — or whose latest committed version is a tombstone —
fails with 404 NotFound directing the caller to use create, while staging a
delete for such a path succeeds and records a null base version reference. -/
theorem c10_edit_vs_delete_on_missing_path (u : User) (i : Nat) (st : St)
    (cr : ChangeRequest) (p : String) (c : Bytes) :
    (require_role WRITE_ROLES u = true → find_cr st i = some cr →
      cr.author_id = u.id → cr.status = CRStatus.draft →
      (strip_slashes p == "") = false →
      (get_latest_version st (strip_slashes p) = none ∨
        ∃ fv, get_latest_version st (strip_slashes p) = some fv ∧
          fv.is_delete = true) →
      (add_file_to_cr u i ⟨p, "edit", some c⟩ st).1 =
        Except.error ⟨404, "File does not exist, use create action"⟩) ∧
    (require_role WRITE_ROLES u = true → find_cr st i = some cr →
      cr.author_id = u.id → cr.status = CRStatus.draft →
      (strip_slashes p == "") = false →
      (get_latest_version st (strip_slashes p) = none ∨
        ∃ fv, get_latest_version st (strip_slashes p) = some fv ∧
          fv.is_delete = true) →
      (add_file_to_cr u i ⟨p, "delete", none⟩ st).1 =
        Except.ok ⟨st.next_crf_id, i, strip_slashes p, "delete", none, none⟩ ∧
      (add_file_to_cr u i ⟨p, "delete", none⟩ st).2.cr_files =
        (st.cr_files.filter (fun f =>
          !(f.change_request_id == i && f.file_path == strip_slashes p))) ++
          [⟨st.next_crf_id, i, strip_slashes p, "delete", none, none⟩]) := by
  constructor
  · intro h1 h2 h3 h4 h5 h6
    rcases h6 with h6 | ⟨fv, h6, h7⟩
    · simp [add_file_to_cr, h1, h2, h3, h4, h5, h6, bne, CRStatus.draft,
        FileAction.create, FileAction.edit, FileAction.delete]
    · simp [add_file_to_cr, h1, h2, h3, h4, h5, h6, h7, bne, CRStatus.draft,
        FileAction.create, FileAction.edit, FileAction.delete]
  · intro h1 h2 h3 h4 h5 h6
    rcases h6 with h6 | ⟨fv, h6, h7⟩
    · constructor
      · simp [add_file_to_cr, h1, h2, h3, h4, h5, h6, bne, CRStatus.draft,
          FileAction.create, FileAction.edit, FileAction.delete]
      · simp [add_file_to_cr, h1, h2, h3, h4, h5, h6, bne, CRStatus.draft,
          FileAction.create, FileAction.edit, FileAction.delete, cr_files_of]
    · constructor
      · simp [add_file_to_cr, h1, h2, h3, h4, h5, h6, h7, bne, CRStatus.draft,
          FileAction.create, FileAction.edit, FileAction.delete]
      · simp [add_file_to_cr, h1, h2, h3, h4, h5, h6, h7, bne, CRStatus.draft,
          FileAction.create, FileAction.edit, FileAction.delete, cr_files_of]

/-- Witness for C10 at concrete inputs: a path with a tombstone as latest
version. -/
theorem c10_edit_vs_delete_on_missing_path_witness :
    (add_file_to_cr uEditor 1 ⟨"g.txt", "edit", some [1]⟩
        (mkSt [⟨1, "g.txt", 1, "", 0, "deleted", 1, "m", true⟩]
          [mkCR 1 "draft" 1] [] [] [])).1 =
      Except.error ⟨404, "File does not exist, use create action"⟩ ∧
    (add_file_to_cr uEditor 1 ⟨"g.txt", "delete", none⟩
        (mkSt [⟨1, "g.txt", 1, "", 0, "deleted", 1, "m", true⟩]
          [mkCR 1 "draft" 1] [] [] [])).1 =
      Except.ok ⟨1, 1, "g.txt", "delete", none, none⟩ := by
  have h := c10_edit_vs_delete_on_missing_path uEditor 1
    (mkSt [⟨1, "g.txt", 1, "", 0, "deleted", 1, "m", true⟩]
      [mkCR 1 "draft" 1] [] [] [])
    (mkCR 1 "draft" 1) "g.txt" [1]
  exact ⟨h.1 (by decide) (by decide) (by decide) (by decide) (by decide)
           (Or.inr ⟨⟨1, "g.txt", 1, "", 0, "deleted", 1, "m", true⟩,
             by decide, by decide⟩),
         (h.2 (by decide) (by decide) (by decide) (by decide) (by decide)
           (Or.inr ⟨⟨1, "g.txt", 1, "", 0, "deleted", 1, "m", true⟩,
             by decide, by decide⟩)).1⟩

/-! ### Claim C7 -/

/-- The version numbers recorded for one path. -/
def path_versions (l : List FileVersion) (p : String) : List Nat :=
  (versions_for l p).map (fun v => v.version)

/-- The versions for a path form the gap-free range `1 .. max`. -/
def contiguous (l : List FileVersion) (p : String) : Prop :=
  ∀ k, k ∈ path_versions l p ↔ (1 ≤ k ∧ k ≤ max_version l p)

theorem max_version_eq_foldl (l : List FileVersion) (p : String) :
    max_version l p = (path_versions l p).foldl (fun m k => max m k) 0 := by
  unfold max_version path_versions
  rw [List.foldl_map]

theorem init_le_foldl_max (l : List Nat) (a : Nat) :
    a ≤ l.foldl (fun m k => max m k) a := by
  induction l generalizing a with
  | nil => simp
  | cons y ys ih => exact le_trans (Nat.le_max_left a y) (ih (max a y))

theorem mem_le_foldl_max (l : List Nat) (a x : Nat) (hx : x ∈ l) :
    x ≤ l.foldl (fun m k => max m k) a := by
  induction l generalizing a with
  | nil => cases hx
  | cons y ys ih =>
    cases hx with
    | head => exact le_trans (Nat.le_max_right a x) (init_le_foldl_max ys (max a x))
    | tail _ h => exact ih (max a y) h

theorem foldl_max_le (l : List Nat) (a m : Nat) (ha : a ≤ m)
    (h : ∀ x ∈ l, x ≤ m) : l.foldl (fun mm k => max mm k) a ≤ m := by
  induction l generalizing a with
  | nil => exact ha
  | cons y ys ih =>
    exact ih (max a y) (Nat.max_le.mpr ⟨ha, h y (List.mem_cons_self y ys)⟩)
      (fun x hx => h x (List.mem_cons_of_mem y hx))

theorem versions_for_append (l l2 : List FileVersion) (p : String) :
    versions_for (l ++ l2) p = versions_for l p ++ versions_for l2 p := by
  simp [versions_for, List.filter_append]

theorem path_versions_snoc (l : List FileVersion) (fv : FileVersion) (p : String) :
    path_versions (l ++ [fv]) p =
      path_versions l p ++ (if (fv.file_path == p) = true then [fv.version] else []) := by
  unfold path_versions
  rw [versions_for_append, List.map_append]
  cases h : fv.file_path == p
  · simp [versions_for, h]
  · simp [versions_for, h]

theorem max_version_snoc (l : List FileVersion) (fv : FileVersion) (p : String) :
    max_version (l ++ [fv]) p =
      if (fv.file_path == p) = true then max (max_version l p) fv.version
      else max_version l p := by
  unfold max_version
  rw [versions_for_append, List.foldl_append]
  cases h : fv.file_path == p
  · simp [versions_for, h]
  · simp [versions_for, h]

theorem contiguous_nil (p : String) : contiguous [] p := by
  intro k
  simp [path_versions, versions_for, max_version]
  omega

theorem contiguous_snoc_same (l : List FileVersion) (fv : FileVersion) (p : String)
    (h : contiguous l p) (hf : (fv.file_path == p) = true)
    (hv : fv.version = max_version l p + 1) : contiguous (l ++ [fv]) p := by
  intro k
  have hk := h k
  rw [path_versions_snoc, max_version_snoc, if_pos hf, if_pos hf,
    Nat.max_eq_right (by omega : max_version l p ≤ fv.version)]
  rw [List.mem_append]
  constructor
  · rintro (hm | hm)
    · have := hk.mp hm
      omega
    · simp at hm
      omega
  · rintro ⟨hk1, hk2⟩
    by_cases hlt : k ≤ max_version l p
    · exact Or.inl (hk.mpr ⟨hk1, hlt⟩)
    · right
      simp
      omega

theorem contiguous_snoc_other (l : List FileVersion) (fv : FileVersion) (p : String)
    (h : contiguous l p) (hf : (fv.file_path == p) = false) :
    contiguous (l ++ [fv]) p := by
  intro k
  rw [path_versions_snoc, max_version_snoc, hf]
  simpa using h k

theorem merge_apply_one_contiguous (sha256_hex : Bytes → String)
    (cr : ChangeRequest) (st st2 : St) (crf : ChangeRequestFile) (p : String)
    (h : contiguous st.file_versions p)
    (hok : merge_apply_one sha256_hex cr st crf = Except.ok st2) :
    contiguous st2.file_versions p := by
  unfold merge_apply_one at hok
  by_cases h1 : (crf.action == FileAction.create || crf.action == FileAction.edit) = true
  · rw [if_pos h1] at hok
    cases hs : crf.staging_s3_key with
    | none =>
      rw [hs] at hok
      cases hok
      exact h
    | some skey =>
      simp only [hs] at hok
      cases hg : s3_get st.s3 skey with
      | none =>
        simp [hg] at hok
      | some content =>
        simp only [hg] at hok
        cases hok
        cases hf : crf.file_path == p with
        | true =>
          refine contiguous_snoc_same _ _ _ h hf ?_
          have : crf.file_path = p := eq_of_beq hf
          simp [get_next_version, this]
        | false => exact contiguous_snoc_other _ _ _ h hf
  · rw [if_neg h1] at hok
    by_cases h2 : (crf.action == FileAction.delete) = true
    · rw [if_pos h2] at hok
      cases hok
      cases hf : crf.file_path == p with
      | true =>
        refine contiguous_snoc_same _ _ _ h hf ?_
        have : crf.file_path = p := eq_of_beq hf
        simp [get_next_version, this]
      | false => exact contiguous_snoc_other _ _ _ h hf
    · rw [if_neg h2] at hok
      cases hok
      exact h

theorem merge_loop_contiguous (sha256_hex : Bytes → String) (cr : ChangeRequest)
    (p : String) (fs : List ChangeRequestFile) :
    ∀ (st st2 : St), contiguous st.file_versions p →
      merge_loop sha256_hex cr st fs = Except.ok st2 →
      contiguous st2.file_versions p := by
  induction fs with
  | nil =>
    intro st st2 h hok
    cases hok
    exact h
  | cons crf rest ih =>
    intro st st2 h hok
    unfold merge_loop at hok
    cases ha : merge_apply_one sha256_hex cr st crf with
    | ok st1 =>
      rw [ha] at hok
      exact ih st1 st2 (merge_apply_one_contiguous sha256_hex cr st st1 crf p h ha) hok
    | error e =>
      rw [ha] at hok
      cases hok

/-- Claim C7 (confirmed): `nextVersion(p)` is one more than the maximum
version recorded for `p` (characterised as a strict upper bound that is
least among successors of upper bounds), equals `1` when no rows exist for
`p`, and merging preserves contiguity: if the versions for `p` form the
gap-free range `1 .. max` before a merge, they still do afterwards (and the
empty history is contiguous), so successive merges allocate `1, 2, 3, ...`
with no gaps or reuse. -/
theorem c7_next_version_contiguity (sha256_hex : Bytes → String) (u : User)
    (i : Nat) (st : St) (p : String) :
    (path_versions st.file_versions p = [] → get_next_version st p = 1) ∧
    (∀ k ∈ path_versions st.file_versions p, k < get_next_version st p) ∧
    (∀ m, (∀ k ∈ path_versions st.file_versions p, k ≤ m) →
      get_next_version st p ≤ m + 1) ∧
    contiguous [] p ∧
    (contiguous st.file_versions p →
      contiguous ((merge_change_request sha256_hex u i st).2).file_versions p) := by
  refine ⟨?_, ?_, ?_, contiguous_nil p, ?_⟩
  · intro h
    unfold get_next_version
    rw [max_version_eq_foldl, h]
    rfl
  · intro k hk
    unfold get_next_version
    rw [max_version_eq_foldl]
    have := mem_le_foldl_max _ 0 k hk
    omega
  · intro m hm
    unfold get_next_version
    rw [max_version_eq_foldl]
    have := foldl_max_le (path_versions st.file_versions p) 0 m (Nat.zero_le m) hm
    omega
  · intro h
    unfold merge_change_request
    by_cases h1 : (!(require_role WRITE_ROLES u)) = true
    · rw [if_pos h1]
      exact h
    · rw [if_neg h1]
      cases hf : find_cr st i with
      | none =>
        simp only
        exact h
      | some cr =>
        simp only
        by_cases h2 : (cr.status != CRStatus.approved) = true
        · rw [if_pos h2]
          exact h
        · rw [if_neg h2]
          cases hml : merge_loop sha256_hex cr st (cr_files_of st i) with
          | error e =>
            simp only
            exact h
          | ok st1 =>
            simp only
            exact merge_loop_contiguous sha256_hex cr p (cr_files_of st i) st st1 h hml

/-- Witness for C7 at concrete inputs: a fresh path gets version 1, versions
recorded for a path bound `nextVersion` as stated, and a concrete merge of
an approved create preserves contiguity. -/
theorem c7_next_version_contiguity_witness :
    get_next_version (mkSt [] [] [] [] []) "p.txt" = 1 ∧
    (∀ k ∈ path_versions
        [(⟨1, "p.txt", 1, "k1", 1, "h1", 1, "m", false⟩ : FileVersion),
         ⟨2, "p.txt", 2, "k2", 1, "h2", 1, "m", false⟩] "p.txt",
      k < get_next_version
        (mkSt [⟨1, "p.txt", 1, "k1", 1, "h1", 1, "m", false⟩,
          ⟨2, "p.txt", 2, "k2", 1, "h2", 1, "m", false⟩] [] [] [] []) "p.txt") ∧
    contiguous ((merge_change_request (fun _ => "h") uApprover 1
      (mkSt [] [mkCR 1 "approved" 1]
        [⟨1, 1, "p.txt", "create", some "_staging/1", none⟩] []
        [("_staging/1", [1])])).2).file_versions "p.txt" := by
  have h1 := c7_next_version_contiguity (fun _ => "h") uApprover 1
    (mkSt [] [] [] [] []) "p.txt"
  have h2 := c7_next_version_contiguity (fun _ => "h") uApprover 1
    (mkSt [⟨1, "p.txt", 1, "k1", 1, "h1", 1, "m", false⟩,
      ⟨2, "p.txt", 2, "k2", 1, "h2", 1, "m", false⟩] [] [] [] []) "p.txt"
  have h3 := c7_next_version_contiguity (fun _ => "h") uApprover 1
    (mkSt [] [mkCR 1 "approved" 1]
      [⟨1, 1, "p.txt", "create", some "_staging/1", none⟩] []
      [("_staging/1", [1])]) "p.txt"
  exact ⟨h1.1 (by decide), h2.2.1,
         h3.2.2.2.2 (by exact contiguous_nil "p.txt")⟩

/-! ### Claim C5 -/

/-- The draft change request of the round-trip scenario. -/
def cr_c5 : ChangeRequest := mkCR 1 "draft" 1

/-- Initial state of the round-trip scenario: one draft CR, empty ledger. -/
def st_c5 : St := mkSt [] [cr_c5] [] [] []

/-- Claim C5 (confirmed): for every path `p` (canonical: slash-stripped,
nonempty, not reserved-prefixed) and content `C`, staging a create of `p`
with content `C` in a ChangeSet and merging it (via submit and approve)
yields a state where get-content of `p` returns exactly `C` and the
recorded `content_hash` of the new FileVersion equals the digest
`sha256_hex C` of `C`. -/
theorem c5_roundtrip (sha256_hex : Bytes → String) (p : String) (C : Bytes)
    (hstrip : strip_slashes p = p) (hne : (p == "") = false)
    (hus : starts_with p "_" = false) :
    (merge_change_request sha256_hex uApprover 1
        (review_change_request uApprover 1 ⟨"approve", ""⟩
          (submit_for_review uEditor 1
            (add_file_to_cr uEditor 1 ⟨p, "create", some C⟩ st_c5).2).2).2).1 =
      Except.ok "merged" ∧
    get_file_content sha256_hex p none
        (merge_change_request sha256_hex uApprover 1
          (review_change_request uApprover 1 ⟨"approve", ""⟩
            (submit_for_review uEditor 1
              (add_file_to_cr uEditor 1 ⟨p, "create", some C⟩ st_c5).2).2).2).2 =
      Except.ok { path := p, content := C, size := C.length, version := 1,
                  content_hash := sha256_hex C, message := "CR #1: T" } ∧
    ((merge_change_request sha256_hex uApprover 1
        (review_change_request uApprover 1 ⟨"approve", ""⟩
          (submit_for_review uEditor 1
            (add_file_to_cr uEditor 1 ⟨p, "create", some C⟩ st_c5).2).2).2).2).file_versions =
      [⟨1, p, 1, "_versions/2", C.length, sha256_hex C, 1, "CR #1: T", false⟩] := by
  have e1 : ("_staging/1" == p) = false :=
    beq_eq_false_of_startsWith _ _ (by decide) hus
  have e2 : (p == "_staging/1") = false :=
    beq_eq_false_of_startsWith_rev _ _ (by decide) hus
  have e3 : ("_versions/2" == p) = false :=
    beq_eq_false_of_startsWith _ _ (by decide) hus
  have e4 : (p == "_versions/2") = false :=
    beq_eq_false_of_startsWith_rev _ _ (by decide) hus
  have hk : generate_staging_key 1 = "_staging/1" := by decide
  have hv : generate_version_key 2 = "_versions/2" := by decide
  have hm : "CR #" ++ toString (1 : Nat) ++ ": " ++ "T" = "CR #1: T" := by decide
  have hA : add_file_to_cr uEditor 1 ⟨p, "create", some C⟩ st_c5 =
      (Except.ok ⟨1, 1, p, "create", some "_staging/1", none⟩,
       { file_versions := [], change_requests := [cr_c5],
         cr_files := [⟨1, 1, p, "create", some "_staging/1", none⟩],
         file_shares := [], s3 := [("_staging/1", C)], next_fv_id := 1,
         next_cr_id := 10, next_crf_id := 2, next_key := 2, now := 0 }) := by
    simp [add_file_to_cr, st_c5, cr_c5, mkCR, mkSt, uEditor, find_cr, hstrip, hne,
      require_role, WRITE_ROLES, UserRole.admin, UserRole.approver, UserRole.editor,
      CRStatus.draft, CRStatus.rejected, FileAction.create, FileAction.edit,
      FileAction.delete, cr_files_of, get_latest_version, versions_for, s3_put,
      hk, bne]
  have hB : submit_for_review uEditor 1
      ({ file_versions := [], change_requests := [cr_c5],
         cr_files := [⟨1, 1, p, "create", some "_staging/1", none⟩],
         file_shares := [], s3 := [("_staging/1", C)], next_fv_id := 1,
         next_cr_id := 10, next_crf_id := 2, next_key := 2, now := 0 } : St) =
      (Except.ok "pending_review",
       { file_versions := [], change_requests := [mkCR 1 "pending_review" 1],
         cr_files := [⟨1, 1, p, "create", some "_staging/1", none⟩],
         file_shares := [], s3 := [("_staging/1", C)], next_fv_id := 1,
         next_cr_id := 10, next_crf_id := 2, next_key := 2, now := 0 }) := by
    simp [submit_for_review, find_cr, cr_c5, mkCR, uEditor, require_role,
      WRITE_ROLES, UserRole.admin, UserRole.approver, UserRole.editor,
      CRStatus.draft, CRStatus.rejected, CRStatus.pending_review, cr_files_of,
      set_cr, List.isEmpty, bne]
  have hC : review_change_request uApprover 1 ⟨"approve", ""⟩
      ({ file_versions := [], change_requests := [mkCR 1 "pending_review" 1],
         cr_files := [⟨1, 1, p, "create", some "_staging/1", none⟩],
         file_shares := [], s3 := [("_staging/1", C)], next_fv_id := 1,
         next_cr_id := 10, next_crf_id := 2, next_key := 2, now := 0 } : St) =
      (Except.ok "approved",
       { file_versions := [],
         change_requests := [⟨1, "T", "", "approved", 1, some 2, some "", some 0,
           none, 0⟩],
         cr_files := [⟨1, 1, p, "create", some "_staging/1", none⟩],
         file_shares := [], s3 := [("_staging/1", C)], next_fv_id := 1,
         next_cr_id := 10, next_crf_id := 2, next_key := 2, now := 0 }) := by
    simp [review_change_request, find_cr, mkCR, uApprover, require_role,
      CRStatus.pending_review, CRStatus.approved, UserRole.admin,
      UserRole.approver, set_cr, bne]
  have hD : merge_change_request sha256_hex uApprover 1
      ({ file_versions := [],
         change_requests := [⟨1, "T", "", "approved", 1, some 2, some "", some 0,
           none, 0⟩],
         cr_files := [⟨1, 1, p, "create", some "_staging/1", none⟩],
         file_shares := [], s3 := [("_staging/1", C)], next_fv_id := 1,
         next_cr_id := 10, next_crf_id := 2, next_key := 2, now := 0 } : St) =
      (Except.ok "merged",
       { file_versions := [⟨1, p, 1, "_versions/2", C.length, sha256_hex C, 1,
           "CR #1: T", false⟩],
         change_requests := [⟨1, "T", "", "merged", 1, some 2, some "", some 0,
           some 0, 0⟩],
         cr_files := [⟨1, 1, p, "create", some "_staging/1", none⟩],
         file_shares := [], s3 := [(p, C), ("_versions/2", C)], next_fv_id := 2,
         next_cr_id := 10, next_crf_id := 2, next_key := 3, now := 0 }) := by
    simp [merge_change_request, merge_loop, merge_apply_one, find_cr, cr_files_of,
      set_cr, get_next_version, max_version, versions_for, s3_get, s3_put,
      s3_delete, uApprover, require_role, WRITE_ROLES, UserRole.admin,
      UserRole.approver, UserRole.editor, CRStatus.approved, CRStatus.merged,
      FileAction.create, FileAction.edit, FileAction.delete, e1, e2, e3, e4,
      hv, hm, bne]
  have hE : get_file_content sha256_hex p none
      ({ file_versions := [⟨1, p, 1, "_versions/2", C.length, sha256_hex C, 1,
           "CR #1: T", false⟩],
         change_requests := [⟨1, "T", "", "merged", 1, some 2, some "", some 0,
           some 0, 0⟩],
         cr_files := [⟨1, 1, p, "create", some "_staging/1", none⟩],
         file_shares := [], s3 := [(p, C), ("_versions/2", C)], next_fv_id := 2,
         next_cr_id := 10, next_crf_id := 2, next_key := 3, now := 0 } : St) =
      Except.ok { path := p, content := C, size := C.length, version := 1,
                  content_hash := sha256_hex C, message := "CR #1: T" } := by
    simp [get_file_content, get_file_content_latest, get_latest_version,
      versions_for, s3_get]
  refine ⟨?_, ?_, ?_⟩
  · rw [hA, hB, hC, hD]
  · rw [hA, hB, hC, hD, hE]
  · rw [hA, hB, hC, hD]

/-- Demonstration hash function for witnesses. -/
def hashDemo : Bytes → String := fun _ => "h"

/-- Witness for C5 at a concrete path and content. -/
theorem c5_roundtrip_witness :
    (merge_change_request hashDemo uApprover 1
        (review_change_request uApprover 1 ⟨"approve", ""⟩
          (submit_for_review uEditor 1
            (add_file_to_cr uEditor 1 ⟨"docs/readme.md", "create", some [1, 2, 3]⟩
              st_c5).2).2).2).1 = Except.ok "merged" ∧
    get_file_content hashDemo "docs/readme.md" none
        (merge_change_request hashDemo uApprover 1
          (review_change_request uApprover 1 ⟨"approve", ""⟩
            (submit_for_review uEditor 1
              (add_file_to_cr uEditor 1 ⟨"docs/readme.md", "create", some [1, 2, 3]⟩
                st_c5).2).2).2).2 =
      Except.ok { path := "docs/readme.md", content := [1, 2, 3], size := 3,
                  version := 1, content_hash := "h", message := "CR #1: T" } := by
  have h := c5_roundtrip hashDemo "docs/readme.md" [1, 2, 3] (by decide) (by decide)
    (by decide)
  exact ⟨h.1, h.2.1⟩

/-! ### Claim C6 -/

/-- Initial state of the tombstone scenario: path `p` committed at version 1
with content `C1`, two draft change requests authored by user 1. -/
def st_c6 (p : String) (C1 : Bytes) : St :=
  { file_versions := [⟨1, p, 1, "kv1", C1.length, "h1", 1, "m1", false⟩],
    change_requests := [mkCR 1 "draft" 1, mkCR 2 "draft" 1],
    cr_files := [], file_shares := [], s3 := [(p, C1)],
    next_fv_id := 2, next_cr_id := 10, next_crf_id := 1, next_key := 1, now := 0 }

/-- Claim C6 (confirmed): merging a staged delete for path `p` appends a
FileVersion row carrying the next version number, an empty blob reference,
size 0, content hash exactly "deleted" and the tombstone flag set, and
deletes the canonical path key; afterwards the latest version for `p` is
that tombstone, get-content of `p` fails with 410 Gone, and staging and
merging a new create for `p` succeeds and allocates the next version
number (here 3), not version 1. -/
theorem c6_tombstone (sha256_hex : Bytes → String) (p : String) (C1 C2 : Bytes)
    (hstrip : strip_slashes p = p) (hne : (p == "") = false)
    (hus : starts_with p "_" = false) :
    (merge_change_request sha256_hex uApprover 1
        (review_change_request uApprover 1 ⟨"approve", ""⟩
          (submit_for_review uEditor 1
            (add_file_to_cr uEditor 1 ⟨p, "delete", none⟩
              (st_c6 p C1)).2).2).2).1 = Except.ok "merged" ∧
    ((merge_change_request sha256_hex uApprover 1
        (review_change_request uApprover 1 ⟨"approve", ""⟩
          (submit_for_review uEditor 1
            (add_file_to_cr uEditor 1 ⟨p, "delete", none⟩
              (st_c6 p C1)).2).2).2).2).file_versions =
      [⟨1, p, 1, "kv1", C1.length, "h1", 1, "m1", false⟩,
       ⟨2, p, 2, "", 0, "deleted", 1, "CR #1: Delete " ++ p, true⟩] ∧
    s3_get ((merge_change_request sha256_hex uApprover 1
        (review_change_request uApprover 1 ⟨"approve", ""⟩
          (submit_for_review uEditor 1
            (add_file_to_cr uEditor 1 ⟨p, "delete", none⟩
              (st_c6 p C1)).2).2).2).2).s3 p = none ∧
    get_latest_version ((merge_change_request sha256_hex uApprover 1
        (review_change_request uApprover 1 ⟨"approve", ""⟩
          (submit_for_review uEditor 1
            (add_file_to_cr uEditor 1 ⟨p, "delete", none⟩
              (st_c6 p C1)).2).2).2).2) p =
      some ⟨2, p, 2, "", 0, "deleted", 1, "CR #1: Delete " ++ p, true⟩ ∧
    get_file_content sha256_hex p none
        ((merge_change_request sha256_hex uApprover 1
          (review_change_request uApprover 1 ⟨"approve", ""⟩
            (submit_for_review uEditor 1
              (add_file_to_cr uEditor 1 ⟨p, "delete", none⟩
                (st_c6 p C1)).2).2).2).2) =
      Except.error ⟨410, "File has been deleted"⟩ ∧
    (merge_change_request sha256_hex uApprover 2
        (review_change_request uApprover 2 ⟨"approve", ""⟩
          (submit_for_review uEditor 2
            (add_file_to_cr uEditor 2 ⟨p, "create", some C2⟩
              ((merge_change_request sha256_hex uApprover 1
                (review_change_request uApprover 1 ⟨"approve", ""⟩
                  (submit_for_review uEditor 1
                    (add_file_to_cr uEditor 1 ⟨p, "delete", none⟩
                      (st_c6 p C1)).2).2).2).2)).2).2).2).1 = Except.ok "merged" ∧
    ((merge_change_request sha256_hex uApprover 2
        (review_change_request uApprover 2 ⟨"approve", ""⟩
          (submit_for_review uEditor 2
            (add_file_to_cr uEditor 2 ⟨p, "create", some C2⟩
              ((merge_change_request sha256_hex uApprover 1
                (review_change_request uApprover 1 ⟨"approve", ""⟩
                  (submit_for_review uEditor 1
                    (add_file_to_cr uEditor 1 ⟨p, "delete", none⟩
                      (st_c6 p C1)).2).2).2).2)).2).2).2).2).file_versions =
      [⟨1, p, 1, "kv1", C1.length, "h1", 1, "m1", false⟩,
       ⟨2, p, 2, "", 0, "deleted", 1, "CR #1: Delete " ++ p, true⟩,
       ⟨3, p, 3, "_versions/2", C2.length, sha256_hex C2, 1, "CR #2: T", false⟩] := by
  have e1 : ("_staging/1" == p) = false :=
    beq_eq_false_of_startsWith _ _ (by decide) hus
  have e2 : (p == "_staging/1") = false :=
    beq_eq_false_of_startsWith_rev _ _ (by decide) hus
  have e3 : ("_versions/2" == p) = false :=
    beq_eq_false_of_startsWith _ _ (by decide) hus
  have e4 : (p == "_versions/2") = false :=
    beq_eq_false_of_startsWith_rev _ _ (by decide) hus
  have hk : generate_staging_key 1 = "_staging/1" := by decide
  have hv : generate_version_key 2 = "_versions/2" := by decide
  have hmd : "CR #" ++ toString (1 : Nat) ++ ": Delete " = "CR #1: Delete " := by decide
  have hm2 : "CR #" ++ toString (2 : Nat) ++ ": " ++ "T" = "CR #2: T" := by decide
  have hA1 : add_file_to_cr uEditor 1 ⟨p, "delete", none⟩ (st_c6 p C1) =
      (Except.ok ⟨1, 1, p, "delete", none, some 1⟩,
       { file_versions := [⟨1, p, 1, "kv1", C1.length, "h1", 1, "m1", false⟩],
         change_requests := [mkCR 1 "draft" 1, mkCR 2 "draft" 1],
         cr_files := [⟨1, 1, p, "delete", none, some 1⟩], file_shares := [],
         s3 := [(p, C1)], next_fv_id := 2, next_cr_id := 10, next_crf_id := 2,
         next_key := 1, now := 0 }) := by
    simp [add_file_to_cr, st_c6, mkCR, uEditor, find_cr, hstrip, hne,
      require_role, WRITE_ROLES, UserRole.admin, UserRole.approver, UserRole.editor,
      CRStatus.draft, CRStatus.rejected, FileAction.create, FileAction.edit,
      FileAction.delete, cr_files_of, get_latest_version, versions_for, s3_put,
      bne]
  have hB1 : submit_for_review uEditor 1
      ({ file_versions := [⟨1, p, 1, "kv1", C1.length, "h1", 1, "m1", false⟩],
         change_requests := [mkCR 1 "draft" 1, mkCR 2 "draft" 1],
         cr_files := [⟨1, 1, p, "delete", none, some 1⟩], file_shares := [],
         s3 := [(p, C1)], next_fv_id := 2, next_cr_id := 10, next_crf_id := 2,
         next_key := 1, now := 0 } : St) =
      (Except.ok "pending_review",
       { file_versions := [⟨1, p, 1, "kv1", C1.length, "h1", 1, "m1", false⟩],
         change_requests := [mkCR 1 "pending_review" 1, mkCR 2 "draft" 1],
         cr_files := [⟨1, 1, p, "delete", none, some 1⟩], file_shares := [],
         s3 := [(p, C1)], next_fv_id := 2, next_cr_id := 10, next_crf_id := 2,
         next_key := 1, now := 0 }) := by
    simp [submit_for_review, find_cr, mkCR, uEditor, require_role,
      WRITE_ROLES, UserRole.admin, UserRole.approver, UserRole.editor,
      CRStatus.draft, CRStatus.rejected, CRStatus.pending_review, cr_files_of,
      set_cr, List.isEmpty, bne]
  have hC1 : review_change_request uApprover 1 ⟨"approve", ""⟩
      ({ file_versions := [⟨1, p, 1, "kv1", C1.length, "h1", 1, "m1", false⟩],
         change_requests := [mkCR 1 "pending_review" 1, mkCR 2 "draft" 1],
         cr_files := [⟨1, 1, p, "delete", none, some 1⟩], file_shares := [],
         s3 := [(p, C1)], next_fv_id := 2, next_cr_id := 10, next_crf_id := 2,
         next_key := 1, now := 0 } : St) =
      (Except.ok "approved",
       { file_versions := [⟨1, p, 1, "kv1", C1.length, "h1", 1, "m1", false⟩],
         change_requests := [⟨1, "T", "", "approved", 1, some 2, some "", some 0,
           none, 0⟩, mkCR 2 "draft" 1],
         cr_files := [⟨1, 1, p, "delete", none, some 1⟩], file_shares := [],
         s3 := [(p, C1)], next_fv_id := 2, next_cr_id := 10, next_crf_id := 2,
         next_key := 1, now := 0 }) := by
    simp [review_change_request, find_cr, mkCR, uApprover, require_role,
      CRStatus.pending_review, CRStatus.approved, UserRole.admin,
      UserRole.approver, set_cr, bne]
  have hD1 : merge_change_request sha256_hex uApprover 1
      ({ file_versions := [⟨1, p, 1, "kv1", C1.length, "h1", 1, "m1", false⟩],
         change_requests := [⟨1, "T", "", "approved", 1, some 2, some "", some 0,
           none, 0⟩, mkCR 2 "draft" 1],
         cr_files := [⟨1, 1, p, "delete", none, some 1⟩], file_shares := [],
         s3 := [(p, C1)], next_fv_id := 2, next_cr_id := 10, next_crf_id := 2,
         next_key := 1, now := 0 } : St) =
      (Except.ok "merged",
       { file_versions := [⟨1, p, 1, "kv1", C1.length, "h1", 1, "m1", false⟩,
           ⟨2, p, 2, "", 0, "deleted", 1, "CR #1: Delete " ++ p, true⟩],
         change_requests := [⟨1, "T", "", "merged", 1, some 2, some "", some 0,
           some 0, 0⟩, mkCR 2 "draft" 1],
         cr_files := [⟨1, 1, p, "delete", none, some 1⟩], file_shares := [],
         s3 := [], next_fv_id := 3, next_cr_id := 10, next_crf_id := 2,
         next_key := 1, now := 0 }) := by
    simp [merge_change_request, merge_loop, merge_apply_one, find_cr, cr_files_of,
      set_cr, get_next_version, max_version, versions_for, s3_get, s3_put,
      s3_delete, uApprover, require_role, WRITE_ROLES, UserRole.admin,
      UserRole.approver, UserRole.editor, CRStatus.approved, CRStatus.merged,
      FileAction.create, FileAction.edit, FileAction.delete, mkCR, hmd, bne]
  have hE1 : get_file_content sha256_hex p none
      ({ file_versions := [⟨1, p, 1, "kv1", C1.length, "h1", 1, "m1", false⟩,
           ⟨2, p, 2, "", 0, "deleted", 1, "CR #1: Delete " ++ p, true⟩],
         change_requests := [⟨1, "T", "", "merged", 1, some 2, some "", some 0,
           some 0, 0⟩, mkCR 2 "draft" 1],
         cr_files := [⟨1, 1, p, "delete", none, some 1⟩], file_shares := [],
         s3 := [], next_fv_id := 3, next_cr_id := 10, next_crf_id := 2,
         next_key := 1, now := 0 } : St) =
      Except.error ⟨410, "File has been deleted"⟩ := by
    simp [get_file_content, get_file_content_latest, get_latest_version,
      versions_for, s3_get]
  have hA2 : add_file_to_cr uEditor 2 ⟨p, "create", some C2⟩
      ({ file_versions := [⟨1, p, 1, "kv1", C1.length, "h1", 1, "m1", false⟩,
           ⟨2, p, 2, "", 0, "deleted", 1, "CR #1: Delete " ++ p, true⟩],
         change_requests := [⟨1, "T", "", "merged", 1, some 2, some "", some 0,
           some 0, 0⟩, mkCR 2 "draft" 1],
         cr_files := [⟨1, 1, p, "delete", none, some 1⟩], file_shares := [],
         s3 := [], next_fv_id := 3, next_cr_id := 10, next_crf_id := 2,
         next_key := 1, now := 0 } : St) =
      (Except.ok ⟨2, 2, p, "create", some "_staging/1", none⟩,
       { file_versions := [⟨1, p, 1, "kv1", C1.length, "h1", 1, "m1", false⟩,
           ⟨2, p, 2, "", 0, "deleted", 1, "CR #1: Delete " ++ p, true⟩],
         change_requests := [⟨1, "T", "", "merged", 1, some 2, some "", some 0,
           some 0, 0⟩, mkCR 2 "draft" 1],
         cr_files := [⟨1, 1, p, "delete", none, some 1⟩,
           ⟨2, 2, p, "create", some "_staging/1", none⟩], file_shares := [],
         s3 := [("_staging/1", C2)], next_fv_id := 3, next_cr_id := 10,
         next_crf_id := 3, next_key := 2, now := 0 }) := by
    simp [add_file_to_cr, mkCR, uEditor, find_cr, hstrip, hne,
      require_role, WRITE_ROLES, UserRole.admin, UserRole.approver, UserRole.editor,
      CRStatus.draft, CRStatus.rejected, FileAction.create, FileAction.edit,
      FileAction.delete, cr_files_of, get_latest_version, versions_for, s3_put,
      hk, bne]
  have hB2 : submit_for_review uEditor 2
      ({ file_versions := [⟨1, p, 1, "kv1", C1.length, "h1", 1, "m1", false⟩,
           ⟨2, p, 2, "", 0, "deleted", 1, "CR #1: Delete " ++ p, true⟩],
         change_requests := [⟨1, "T", "", "merged", 1, some 2, some "", some 0,
           some 0, 0⟩, mkCR 2 "draft" 1],
         cr_files := [⟨1, 1, p, "delete", none, some 1⟩,
           ⟨2, 2, p, "create", some "_staging/1", none⟩], file_shares := [],
         s3 := [("_staging/1", C2)], next_fv_id := 3, next_cr_id := 10,
         next_crf_id := 3, next_key := 2, now := 0 } : St) =
      (Except.ok "pending_review",
       { file_versions := [⟨1, p, 1, "kv1", C1.length, "h1", 1, "m1", false⟩,
           ⟨2, p, 2, "", 0, "deleted", 1, "CR #1: Delete " ++ p, true⟩],
         change_requests := [⟨1, "T", "", "merged", 1, some 2, some "", some 0,
           some 0, 0⟩, mkCR 2 "pending_review" 1],
         cr_files := [⟨1, 1, p, "delete", none, some 1⟩,
           ⟨2, 2, p, "create", some "_staging/1", none⟩], file_shares := [],
         s3 := [("_staging/1", C2)], next_fv_id := 3, next_cr_id := 10,
         next_crf_id := 3, next_key := 2, now := 0 }) := by
    simp [submit_for_review, find_cr, mkCR, uEditor, require_role,
      WRITE_ROLES, UserRole.admin, UserRole.approver, UserRole.editor,
      CRStatus.draft, CRStatus.rejected, CRStatus.pending_review, cr_files_of,
      set_cr, List.isEmpty, bne]
  have hC2 : review_change_request uApprover 2 ⟨"approve", ""⟩
      ({ file_versions := [⟨1, p, 1, "kv1", C1.length, "h1", 1, "m1", false⟩,
           ⟨2, p, 2, "", 0, "deleted", 1, "CR #1: Delete " ++ p, true⟩],
         change_requests := [⟨1, "T", "", "merged", 1, some 2, some "", some 0,
           some 0, 0⟩, mkCR 2 "pending_review" 1],
         cr_files := [⟨1, 1, p, "delete", none, some 1⟩,
           ⟨2, 2, p, "create", some "_staging/1", none⟩], file_shares := [],
         s3 := [("_staging/1", C2)], next_fv_id := 3, next_cr_id := 10,
         next_crf_id := 3, next_key := 2, now := 0 } : St) =
      (Except.ok "approved",
       { file_versions := [⟨1, p, 1, "kv1", C1.length, "h1", 1, "m1", false⟩,
           ⟨2, p, 2, "", 0, "deleted", 1, "CR #1: Delete " ++ p, true⟩],
         change_requests := [⟨1, "T", "", "merged", 1, some 2, some "", some 0,
           some 0, 0⟩, ⟨2, "T", "", "approved", 1, some 2, some "", some 0,
           none, 0⟩],
         cr_files := [⟨1, 1, p, "delete", none, some 1⟩,
           ⟨2, 2, p, "create", some "_staging/1", none⟩], file_shares := [],
         s3 := [("_staging/1", C2)], next_fv_id := 3, next_cr_id := 10,
         next_crf_id := 3, next_key := 2, now := 0 }) := by
    simp [review_change_request, find_cr, mkCR, uApprover, require_role,
      CRStatus.pending_review, CRStatus.approved, UserRole.admin,
      UserRole.approver, set_cr, bne]
  have hD2 : merge_change_request sha256_hex uApprover 2
      ({ file_versions := [⟨1, p, 1, "kv1", C1.length, "h1", 1, "m1", false⟩,
           ⟨2, p, 2, "", 0, "deleted", 1, "CR #1: Delete " ++ p, true⟩],
         change_requests := [⟨1, "T", "", "merged", 1, some 2, some "", some 0,
           some 0, 0⟩, ⟨2, "T", "", "approved", 1, some 2, some "", some 0,
           none, 0⟩],
         cr_files := [⟨1, 1, p, "delete", none, some 1⟩,
           ⟨2, 2, p, "create", some "_staging/1", none⟩], file_shares := [],
         s3 := [("_staging/1", C2)], next_fv_id := 3, next_cr_id := 10,
         next_crf_id := 3, next_key := 2, now := 0 } : St) =
      (Except.ok "merged",
       { file_versions := [⟨1, p, 1, "kv1", C1.length, "h1", 1, "m1", false⟩,
           ⟨2, p, 2, "", 0, "deleted", 1, "CR #1: Delete " ++ p, true⟩,
           ⟨3, p, 3, "_versions/2", C2.length, sha256_hex C2, 1, "CR #2: T",
             false⟩],
         change_requests := [⟨1, "T", "", "merged", 1, some 2, some "", some 0,
           some 0, 0⟩, ⟨2, "T", "", "merged", 1, some 2, some "", some 0,
           some 0, 0⟩],
         cr_files := [⟨1, 1, p, "delete", none, some 1⟩,
           ⟨2, 2, p, "create", some "_staging/1", none⟩], file_shares := [],
         s3 := [(p, C2), ("_versions/2", C2)], next_fv_id := 4, next_cr_id := 10,
         next_crf_id := 3, next_key := 3, now := 0 }) := by
    simp [merge_change_request, merge_loop, merge_apply_one, find_cr, cr_files_of,
      set_cr, get_next_version, max_version, versions_for, s3_get, s3_put,
      s3_delete, uApprover, require_role, WRITE_ROLES, UserRole.admin,
      UserRole.approver, UserRole.editor, CRStatus.approved, CRStatus.merged,
      FileAction.create, FileAction.edit, FileAction.delete, e1, e2, e3, e4,
      hv, hm2, bne]
  refine ⟨?_, ?_, ?_, ?_, ?_, ?_, ?_⟩
  · rw [hA1, hB1, hC1, hD1]
  · rw [hA1, hB1, hC1, hD1]
  · rw [hA1, hB1, hC1, hD1]
    simp [s3_get]
  · rw [hA1, hB1, hC1, hD1]
    simp [get_latest_version, versions_for]
  · rw [hA1, hB1, hC1, hD1, hE1]
  · rw [hA1, hB1, hC1, hD1, hA2, hB2, hC2, hD2]
  · rw [hA1, hB1, hC1, hD1, hA2, hB2, hC2, hD2]

/-- Witness for C6 at a concrete path and contents. -/
theorem c6_tombstone_witness :
    (merge_change_request hashDemo uApprover 1
        (review_change_request uApprover 1 ⟨"approve", ""⟩
          (submit_for_review uEditor 1
            (add_file_to_cr uEditor 1 ⟨"docs/readme.md", "delete", none⟩
              (st_c6 "docs/readme.md" [1])).2).2).2).1 = Except.ok "merged" ∧
    get_latest_version ((merge_change_request hashDemo uApprover 1
        (review_change_request uApprover 1 ⟨"approve", ""⟩
          (submit_for_review uEditor 1
            (add_file_to_cr uEditor 1 ⟨"docs/readme.md", "delete", none⟩
              (st_c6 "docs/readme.md" [1])).2).2).2).2) "docs/readme.md" =
      some ⟨2, "docs/readme.md", 2, "", 0, "deleted", 1,
        "CR #1: Delete " ++ "docs/readme.md", true⟩ ∧
    get_file_content hashDemo "docs/readme.md" none
        ((merge_change_request hashDemo uApprover 1
          (review_change_request uApprover 1 ⟨"approve", ""⟩
            (submit_for_review uEditor 1
              (add_file_to_cr uEditor 1 ⟨"docs/readme.md", "delete", none⟩
                (st_c6 "docs/readme.md" [1])).2).2).2).2) =
      Except.error ⟨410, "File has been deleted"⟩ ∧
    ((merge_change_request hashDemo uApprover 2
        (review_change_request uApprover 2 ⟨"approve", ""⟩
          (submit_for_review uEditor 2
            (add_file_to_cr uEditor 2 ⟨"docs/readme.md", "create", some [2, 3]⟩
              ((merge_change_request hashDemo uApprover 1
                (review_change_request uApprover 1 ⟨"approve", ""⟩
                  (submit_for_review uEditor 1
                    (add_file_to_cr uEditor 1 ⟨"docs/readme.md", "delete", none⟩
                      (st_c6 "docs/readme.md" [1])).2).2).2).2)).2).2).2).2).file_versions =
      [⟨1, "docs/readme.md", 1, "kv1", 1, "h1", 1, "m1", false⟩,
       ⟨2, "docs/readme.md", 2, "", 0, "deleted", 1,
         "CR #1: Delete " ++ "docs/readme.md", true⟩,
       ⟨3, "docs/readme.md", 3, "_versions/2", 2, "h", 1, "CR #2: T", false⟩] := by
  have h := c6_tombstone hashDemo "docs/readme.md" [1] [2, 3] (by decide)
    (by decide) (by decide)
  exact ⟨h.1, h.2.2.2.1, h.2.2.2.2.1, h.2.2.2.2.2.2⟩

/-! ### Claim C8 -/

/-- Rewrite every StagedOperation base-version reference by `f`, leaving all
other state untouched. -/
def rewrite_bases (f : ChangeRequestFile → Option Nat) (st : St) : St :=
  { st with cr_files :=
      st.cr_files.map (fun crf => { crf with base_version_id := f crf }) }

theorem merge_apply_one_rewrite (sha256_hex : Bytes → String) (cr : ChangeRequest)
    (st : St) (f : ChangeRequestFile → Option Nat) (crf : ChangeRequestFile) :
    merge_apply_one sha256_hex cr (rewrite_bases f st)
        { crf with base_version_id := f crf } =
      (match merge_apply_one sha256_hex cr st crf with
       | Except.ok st1 => Except.ok (rewrite_bases f st1)
       | Except.error e => Except.error (e.1, rewrite_bases f e.2)) := by
  by_cases h1 : (crf.action == FileAction.create || crf.action == FileAction.edit) = true
  · cases hs : crf.staging_s3_key with
    | none => simp [merge_apply_one, rewrite_bases, h1, hs]
    | some skey =>
      cases hg : s3_get st.s3 skey with
      | none => simp [merge_apply_one, rewrite_bases, h1, hs, hg]
      | some content =>
        simp [merge_apply_one, rewrite_bases, h1, hs, hg, get_next_version,
          max_version, versions_for]
  · by_cases h2 : (crf.action == FileAction.delete) = true
    · simp [merge_apply_one, rewrite_bases, h1, h2, get_next_version,
        max_version, versions_for]
    · simp [merge_apply_one, rewrite_bases, h1, h2]

theorem merge_loop_rewrite (sha256_hex : Bytes → String) (cr : ChangeRequest)
    (f : ChangeRequestFile → Option Nat) (fs : List ChangeRequestFile) :
    ∀ st : St,
      merge_loop sha256_hex cr (rewrite_bases f st)
          (fs.map (fun crf => { crf with base_version_id := f crf })) =
        (match merge_loop sha256_hex cr st fs with
         | Except.ok st1 => Except.ok (rewrite_bases f st1)
         | Except.error e => Except.error (e.1, rewrite_bases f e.2)) := by
  induction fs with
  | nil => intro st; rfl
  | cons crf rest ih =>
    intro st
    simp only [List.map_cons, merge_loop]
    rw [merge_apply_one_rewrite]
    cases ha : merge_apply_one sha256_hex cr st crf with
    | ok st1 => simp [ih st1]
    | error e => simp

theorem cr_files_of_rewrite (f : ChangeRequestFile → Option Nat) (st : St)
    (i : Nat) :
    cr_files_of (rewrite_bases f st) i =
      (cr_files_of st i).map (fun crf => { crf with base_version_id := f crf }) := by
  simp only [cr_files_of, rewrite_bases, List.filter_map]
  rfl

theorem merge_ignores_bases (sha256_hex : Bytes → String) (u : User) (i : Nat)
    (f : ChangeRequestFile → Option Nat) (st : St) :
    merge_change_request sha256_hex u i (rewrite_bases f st) =
      ((merge_change_request sha256_hex u i st).1,
       rewrite_bases f (merge_change_request sha256_hex u i st).2) := by
  unfold merge_change_request
  have hfind : find_cr (rewrite_bases f st) i = find_cr st i := rfl
  by_cases h1 : (!(require_role WRITE_ROLES u)) = true
  · simp [h1, rewrite_bases]
  · simp only [h1, if_neg, Bool.not_eq_true]
    rw [hfind]
    cases hf : find_cr st i with
    | none => simp [rewrite_bases]
    | some cr =>
      simp only
      by_cases h2 : (cr.status != CRStatus.approved) = true
      · simp [h2, rewrite_bases]
      · simp only [h2]
        rw [cr_files_of_rewrite, merge_loop_rewrite]
        cases hml : merge_loop sha256_hex cr st (cr_files_of st i) with
        | error e => simp [rewrite_bases]
        | ok st1 => simp [set_cr, rewrite_bases]

/-- An approved change set holding an edit of `p` whose recorded base is
version 1 while the ledger's latest version for `p` is version 2. -/
def st_c8 (p : String) (oldC newC : Bytes) : St :=
  { file_versions := [⟨1, p, 1, "kva", oldC.length, "ha", 1, "ma", false⟩,
      ⟨2, p, 2, "kvb", oldC.length, "hb", 1, "mb", false⟩],
    change_requests := [⟨1, "T", "", "approved", 1, some 2, some "", some 0,
      none, 0⟩],
    cr_files := [⟨1, 1, p, "edit", some "_staging/9", some 1⟩],
    file_shares := [], s3 := [("_staging/9", newC), (p, oldC)],
    next_fv_id := 3, next_cr_id := 10, next_crf_id := 2, next_key := 5, now := 0 }

/-- Claim C8 (confirmed): merge never consults the StagedOperation base
version.  First, rewriting every base-version reference arbitrarily changes
neither the result of merge nor any other component of the final state
(there is no comparison of base against latest).  Second, on an approved
change set holding an edit whose base version (1) is stale — the latest
version for the path is 2 — merge succeeds with no Conflict and installs
the staged content as the new latest version 3 (last-approved-merge-wins). -/
theorem c8_merge_ignores_base_version (sha256_hex : Bytes → String) (u : User)
    (i : Nat) (f : ChangeRequestFile → Option Nat) (st : St) (p : String)
    (oldC newC : Bytes) :
    (merge_change_request sha256_hex u i (rewrite_bases f st) =
      ((merge_change_request sha256_hex u i st).1,
       rewrite_bases f (merge_change_request sha256_hex u i st).2)) ∧
    (starts_with p "_" = false →
      get_latest_version (st_c8 p oldC newC) p =
        some ⟨2, p, 2, "kvb", oldC.length, "hb", 1, "mb", false⟩ ∧
      (merge_change_request sha256_hex uApprover 1 (st_c8 p oldC newC)).1 =
        Except.ok "merged" ∧
      ((merge_change_request sha256_hex uApprover 1
          (st_c8 p oldC newC)).2).file_versions =
        [⟨1, p, 1, "kva", oldC.length, "ha", 1, "ma", false⟩,
         ⟨2, p, 2, "kvb", oldC.length, "hb", 1, "mb", false⟩,
         ⟨3, p, 3, "_versions/5", newC.length, sha256_hex newC, 1, "CR #1: T",
           false⟩] ∧
      s3_get ((merge_change_request sha256_hex uApprover 1
          (st_c8 p oldC newC)).2).s3 p = some newC) := by
  constructor
  · exact merge_ignores_bases sha256_hex u i f st
  · intro hus
    have e1 : ("_staging/9" == p) = false :=
      beq_eq_false_of_startsWith _ _ (by decide) hus
    have e2 : (p == "_staging/9") = false :=
      beq_eq_false_of_startsWith_rev _ _ (by decide) hus
    have e3 : ("_versions/5" == p) = false :=
      beq_eq_false_of_startsWith _ _ (by decide) hus
    have e4 : (p == "_versions/5") = false :=
      beq_eq_false_of_startsWith_rev _ _ (by decide) hus
    have hv : generate_version_key 5 = "_versions/5" := by decide
    have hm : "CR #" ++ toString (1 : Nat) ++ ": " ++ "T" = "CR #1: T" := by decide
    have hD : merge_change_request sha256_hex uApprover 1 (st_c8 p oldC newC) =
        (Except.ok "merged",
         { file_versions := [⟨1, p, 1, "kva", oldC.length, "ha", 1, "ma", false⟩,
             ⟨2, p, 2, "kvb", oldC.length, "hb", 1, "mb", false⟩,
             ⟨3, p, 3, "_versions/5", newC.length, sha256_hex newC, 1,
               "CR #1: T", false⟩],
           change_requests := [⟨1, "T", "", "merged", 1, some 2, some "", some 0,
             some 0, 0⟩],
           cr_files := [⟨1, 1, p, "edit", some "_staging/9", some 1⟩],
           file_shares := [], s3 := [(p, newC), ("_versions/5", newC)],
           next_fv_id := 4, next_cr_id := 10, next_crf_id := 2, next_key := 6,
           now := 0 }) := by
      simp [merge_change_request, merge_loop, merge_apply_one, find_cr,
        cr_files_of, set_cr, get_next_version, max_version, versions_for,
        s3_get, s3_put, s3_delete, st_c8, uApprover, require_role, WRITE_ROLES,
        UserRole.admin, UserRole.approver, UserRole.editor, CRStatus.approved,
        CRStatus.merged, FileAction.create, FileAction.edit, FileAction.delete,
        e1, e2, e3, e4, hv, hm, bne]
    refine ⟨?_, ?_, ?_, ?_⟩
    · simp [get_latest_version, versions_for, st_c8]
    · rw [hD]
    · rw [hD]
    · rw [hD]
      simp [s3_get]

/-- Witness for C8 at concrete inputs. -/
theorem c8_merge_ignores_base_version_witness :
    merge_change_request hashDemo uAdmin 1
        (rewrite_bases (fun _ => none) (mkSt [] [] [] [] [])) =
      ((merge_change_request hashDemo uAdmin 1 (mkSt [] [] [] [] [])).1,
       rewrite_bases (fun _ => none)
         (merge_change_request hashDemo uAdmin 1 (mkSt [] [] [] [] [])).2) ∧
    (merge_change_request hashDemo uApprover 1 (st_c8 "a.md" [1] [2, 3])).1 =
      Except.ok "merged" ∧
    s3_get ((merge_change_request hashDemo uApprover 1
        (st_c8 "a.md" [1] [2, 3])).2).s3 "a.md" = some [2, 3] := by
  have h := c8_merge_ignores_base_version hashDemo uAdmin 1 (fun _ => none)
    (mkSt [] [] [] [] []) "a.md" [1] [2, 3]
  exact ⟨h.1, (h.2 (by decide)).2.1, (h.2 (by decide)).2.2.2⟩
